import Mathlib

/-!
Verification development for the kifgo payment/shipping sandbox.

The repository under verification is a TypeScript application linking a
hosted payment gateway, a webhook notifier and the Pronto shipping-carrier
API through a locally persisted payment-session record.  This file gives a
shallow embedding, in Lean 4, of the parts of the source relevant to the
payment-session lifecycle and shipment orchestration:

* `src/lib/prontoApiService.ts` — carrier client (`makeRequest` with its
  retry and TLS-fallback policy, `processResponse`, `shouldRetryRequest`,
  `isCertificateError`, `getAreaCodeForLocation`, `PRONTO_AREA_CODES`);
* `src/lib/repositories/paymentSessions.ts` — the session store
  (`createPaymentSession`, `updatePaymentSession`, `getPaymentSession`);
* `src/lib/prontoOrderService.ts` — `createProntoShipment` and
  `createShipmentForSession`;
* `src/app/api/ipg/webhook/route.ts` — `processWebhook` with
  `extractSessionId` and `isPaymentSuccessful`;
* `src/app/api/payments/create-session/route.ts` — the session-creation
  handler (`createSessionPOST` here, the quote block as `quoteStep`).

Conventions of the embedding:

* JavaScript numbers are modelled as exact rationals extended with the
  non-finite values `NaN` and signed infinity (`JsNum`); the claims under
  verification never depend on binary floating-point rounding.
* External I/O (the carrier's network behaviour) is modelled by an oracle:
  a list of `SendOutcome`s consumed one per physical HTTP send.  An
  exhausted oracle yields a distinguished transport error; every theorem
  about a concrete run supplies enough outcomes that this branch is
  irrelevant.
* The sqlite store is modelled as an association list keyed by session id,
  mirroring §4.3 of the specification (single-table key-value record).
  Store reads and writes are logged in a trace (`StoreOp`) so that
  ordering/short-circuit claims are expressible.
* `new Date().toISOString()` is modelled by a `now : String` parameter
  supplied per request.
-/

namespace Kifgo

/-! ## JavaScript numbers -/

/-- A JavaScript number as observed by this code base: an exact rational,
`NaN`, or a signed infinity.  The claims never depend on double rounding. -/
inductive JsNum where
  | nan : JsNum
  | inf (pos : Bool) : JsNum
  | num (q : ℚ) : JsNum
deriving DecidableEq, Repr

/-- Embedding of `Number.isFinite`. -/
def jsIsFinite : JsNum → Bool
  | .num _ => true
  | _ => false

/-- Embedding of `Number.prototype.toFixed(2)` followed by `Number(...)`:
round to two decimals, ties to the larger candidate (ECMA-262 `toFixed`).
Written with `mkRat` and `Rat.floor` so that concrete runs reduce inside
the kernel. -/
def jsToFixed2 (q : ℚ) : ℚ :=
  mkRat (q * 100 + mkRat 1 2).floor 100

/-! ## JavaScript strings -/

/-- White space recognised by `parseFloat` / `trim` (ASCII part). -/
def jsWhitespace (c : Char) : Bool :=
  c == ' ' || c == '\t' || c == '\n' || c == '\r' || c == '\x0b' || c == '\x0c'

/-- Embedding of `String.prototype.trim`. -/
def jsTrim (s : String) : String :=
  ⟨((s.data.dropWhile jsWhitespace).reverse.dropWhile jsWhitespace).reverse⟩

/-- Embedding of `String.prototype.toLowerCase` (ASCII inputs). -/
def jsToLower (s : String) : String :=
  ⟨s.data.map Char.toLower⟩

/-- Embedding of `String.prototype.toUpperCase` (ASCII inputs). -/
def jsToUpper (s : String) : String :=
  ⟨s.data.map Char.toUpper⟩

/-- Does `needle` occur as a contiguous run inside `hay`? -/
def containsSub (needle : List Char) : List Char → Bool
  | [] => needle.isPrefixOf []
  | c :: rest => needle.isPrefixOf (c :: rest) || containsSub needle rest

/-- Embedding of `String.prototype.includes`. -/
def strContains (hay needle : String) : Bool :=
  containsSub needle.data hay.data

/-- Decimal digits of a natural number, most significant first. -/
def natDigits (n : Nat) : List Char :=
  if h : n < 10 then [Char.ofNat (48 + n)]
  else
    have : n / 10 < n := Nat.div_lt_self (by omega) (by omega)
    natDigits (n / 10) ++ [Char.ofNat (48 + n % 10)]

/-- Decimal rendering of a natural number, as JavaScript template
interpolation renders an HTTP status code. -/
def natRepr (n : Nat) : String :=
  ⟨natDigits n⟩

/-- Numeric value of a digit character. -/
def digitVal (c : Char) : Nat := c.toNat - 48

/-- Split off the leading run of decimal digits. -/
def takeDigits : List Char → List Char × List Char
  | [] => ([], [])
  | c :: cs =>
    if c.isDigit then
      let (d, r) := takeDigits cs
      (c :: d, r)
    else ([], c :: cs)

/-- Natural number denoted by a digit run. -/
def digitsToNat (ds : List Char) : Nat :=
  ds.foldl (fun a c => a * 10 + digitVal c) 0

/-- Embedding of `parseFloat` / `Number.parseFloat`: skip leading white
space, optional sign, `Infinity`, else the longest decimal-literal prefix
(integer part, optional fraction, optional exponent); `NaN` when no digits
are found. -/
def jsParseFloat (s : String) : JsNum :=
  let cs := s.data.dropWhile jsWhitespace
  let (sign, cs1) : ℚ × List Char :=
    match cs with
    | '+' :: r => (1, r)
    | '-' :: r => (-1, r)
    | r => (1, r)
  if "Infinity".data.isPrefixOf cs1 then .inf (sign > 0)
  else
    let (ip, cs2) := takeDigits cs1
    let (fp, cs3) :=
      match cs2 with
      | '.' :: r => takeDigits r
      | _ => ([], cs2)
    if ip.isEmpty && fp.isEmpty then .nan
    else
      let mantissa : ℚ :=
        mkRat (digitsToNat ip) 1 + mkRat (digitsToNat fp) (10 ^ fp.length)
      let scale : ℚ :=
        match cs3 with
        | e :: r =>
          if e == 'e' || e == 'E' then
            let (eneg, r1) : Bool × List Char :=
              match r with
              | '+' :: t => (false, t)
              | '-' :: t => (true, t)
              | t => (false, t)
            let (ed, _) := takeDigits r1
            if ed.isEmpty then 1
            else if eneg then mkRat 1 (10 ^ digitsToNat ed)
            else mkRat (10 ^ digitsToNat ed) 1
          else 1
        | [] => 1
      .num (sign * mantissa * scale)

/-! ## Loosely-typed JSON values (webhook payloads, metadata) -/

mutual

/-- A JSON-ish JavaScript value as handled by the webhook and the metadata
bag: string, number, boolean, null, or object. -/
inductive JVal where
  | str (s : String) : JVal
  | num (n : JsNum) : JVal
  | jbool (b : Bool) : JVal
  | jnull : JVal
  | obj (fields : JObj) : JVal
deriving DecidableEq, Repr

/-- Field list of a JavaScript object (keys unique in all values built
here). -/
inductive JObj where
  | nil : JObj
  | cons (k : String) (v : JVal) (rest : JObj) : JObj
deriving DecidableEq, Repr

end

/-- Build an object from a list of fields. -/
def JObj.ofList : List (String × JVal) → JObj
  | [] => .nil
  | (k, v) :: rest => .cons k v (JObj.ofList rest)

/-- Property read `o[k]`: the first binding of `k`, if any. -/
def jlookup : JObj → String → Option JVal
  | .nil, _ => none
  | .cons k0 v0 rest, k => if k0 == k then some v0 else jlookup rest k

/-- Property write: replace the binding of `k` in place, or append it.
`jsSet (jsSet m k₁ v₁) k₂ v₂` models the spread `\x7b...m, k₁: v₁, k₂: v₂\x7d`. -/
def jsSet : JObj → String → JVal → JObj
  | .nil, k, v => .cons k v .nil
  | .cons k0 v0 rest, k, v =>
    if k0 == k then .cons k0 v rest else .cons k0 v0 (jsSet rest k v)

mutual

/-- Does the string `s` occur as a string value anywhere inside `v`? -/
def jvalMentions (s : String) : JVal → Bool
  | .str t => t == s
  | .num _ => false
  | .jbool _ => false
  | .jnull => false
  | .obj fields => jobjMentions fields s

/-- Does the string occur anywhere among the values of an object? -/
def jobjMentions : JObj → String → Bool
  | .nil, _ => false
  | .cons _ v rest, s => jvalMentions s v || jobjMentions rest s

end

/-! ## Errors

JavaScript `Error` values: a message, an optional `code`, and an optional
`cause` chain (the cycle guard of `isCertificateError` is unrepresentable
in an inductive chain and therefore omitted). -/

structure JsErr where
  message : String
  code : String := ""
  /-- The `(message, code)` pairs of the `cause` chain, outermost cause
  first.  The chain is finite by construction, so the cycle guard of the
  source is vacuous here. -/
  causes : List (String × String) := []
deriving DecidableEq, Repr

/-- A plain `new Error(message)`. -/
def jsError (message : String) : JsErr := ⟨message, "", []⟩

/-! ## Carrier gateway client (`src/lib/prontoApiService.ts`) -/

/-- The body of a Pronto API JSON response, restricted to the fields this
code base reads.  For the nested wrappers the outer `Option` models the
wrapper object (`live_amount`, `emp_trackingno`) being absent — reading
through an absent wrapper throws a `TypeError` — and the inner `Option`
models the leaf field (`amount`, `tno`) being absent on a present
wrapper. -/
structure ProntoBody where
  status : String
  status_ref : Option String := none
  live_amount : Option (Option String) := none
  emp_trackingno : Option (Option String) := none
  insertion_fb : Option String := none
deriving DecidableEq, Repr

/-- One physical HTTP send to the carrier, as decided by the environment:
either the transport throws, or a response (HTTP ok flag, HTTP status
code, parsed JSON body) arrives. -/
inductive SendOutcome where
  | err (e : JsErr) : SendOutcome
  | resp (ok : Bool) (httpStatus : Nat) (body : ProntoBody) : SendOutcome
deriving DecidableEq, Repr

/-- Embedding of `shouldRetryRequest`: transport-looking failures are
recognised by substrings of the error message. -/
def shouldRetryRequest (e : JsErr) : Bool :=
  let message := e.message
  strContains message "Connect Timeout" ||
  strContains message "fetch failed" ||
  strContains message "ECONNRESET" ||
  strContains message "ENOTFOUND" ||
  strContains message "request timeout"

/-- Does one level of an error (its message and code) look like a
certificate-validation failure? -/
def certMarker (message code : String) : Bool :=
  code == "CERT_HAS_EXPIRED" ||
  code == "DEPTH_ZERO_SELF_SIGNED_CERT" ||
  code == "UNABLE_TO_VERIFY_LEAF_SIGNATURE" ||
  strContains message "CERT_HAS_EXPIRED" ||
  strContains message "self signed certificate" ||
  strContains message "unable to verify the first certificate"

/-- Embedding of `isCertificateError`: walk the error and its cause chain
looking for certificate-validation codes or message markers. -/
def isCertificateError (e : JsErr) : Bool :=
  certMarker e.message e.code ||
  e.causes.any (fun p => certMarker p.1 p.2)

/-- Embedding of `ProntoApiService.processResponse`: throw on a not-OK
HTTP status; throw on the sentinel body status `0`; otherwise return the
body. -/
def processResponse (ok : Bool) (httpStatus : Nat) (body : ProntoBody) :
    Except JsErr ProntoBody :=
  if !ok then
    .error (jsError ("HTTP error! status: " ++ natRepr httpStatus))
  else if body.status == "0" then
    .error (jsError ("Pronto API error: " ++ (body.status_ref.getD "Unknown error")))
  else
    .ok body

/-- Result of `makeRequest`: the outcome, the retry delays slept (ms), the
unconsumed tail of the send oracle, and the number of sends consumed. -/
structure MRes where
  result : Except JsErr ProntoBody
  delays : List Nat
  rest : List SendOutcome
  used : Nat
deriving Repr

/-- The distinguished transport error produced when the send oracle is
exhausted (a model artifact: every claim supplies enough outcomes). -/
def oracleExhausted : JsErr := jsError "send oracle exhausted"

/-- Embedding of `ProntoApiService.makeRequest`.  Each physical send
consumes one oracle entry.  A thrown error (transport, or a throw from
`processResponse`, which runs inside the same `try`) goes to the catch
logic: certificate errors against a TLS-relaxable endpoint trigger one
fallback re-send with the insecure transport; errors recognised by
`shouldRetryRequest` are retried up to 2 further times with delays 2000ms
then 4000ms; anything else propagates. -/
def makeRequest (allowTls : Bool) (retryCount : Nat) (force : Bool) :
    List SendOutcome → MRes
  | [] => ⟨.error oracleExhausted, [], [], 0⟩
  | s :: rest =>
    match (match s with
           | .err e => (.error e : Except JsErr ProntoBody)
           | .resp ok st body => processResponse ok st body) with
    | .ok body => ⟨.ok body, [], rest, 1⟩
    | .error e =>
      if allowTls && !(allowTls && force) && isCertificateError e then
        let inner := makeRequest allowTls retryCount true rest
        ⟨inner.result, inner.delays, inner.rest, inner.used + 1⟩
      else if decide (retryCount < 2) && shouldRetryRequest e then
        let inner := makeRequest allowTls (retryCount + 1) force rest
        ⟨inner.result, (retryCount + 1) * 2000 :: inner.delays, inner.rest,
         inner.used + 1⟩
      else
        ⟨.error e, [], rest, 1⟩

/-- Deployment configuration consumed by the modelled handlers. -/
structure Env where
  ipgWebhookSecret : Option String := none
  prontoCustomerCode : Option String := none
  prontoApiBaseUrl : Option String := none
  prontoAllowInsecureTls : Bool := false
  nodeEnvDevelopment : Bool := false
  mpgsMerchantId : Option String := none
  mpgsApiPassword : Option String := none
  mpgsApiBaseUrl : Option String := none
  baseUrl : Option String := none
  mpgsCurrency : Option String := none
deriving Repr

/-- The default Pronto base URL (`createProntoApiService`). -/
def defaultProntoBaseUrl : String :=
  "https://uat-api.prontolanka.lk:18443/PR_API.aspx"

/-- Embedding of `ProntoApiService.shouldAllowInsecureTls` for the service
built by `createProntoApiService`. -/
def shouldAllowInsecureTls (env : Env) : Bool :=
  env.prontoAllowInsecureTls ||
  (env.nodeEnvDevelopment ||
   strContains (env.prontoApiBaseUrl.getD defaultProntoBaseUrl) "uat-api")

/-- One carrier API call (`calculateShippingCost`, `requestTrackingNumber`,
`insertShipment` all funnel through `makeRequest` with retry count 0 and
the secure transport; the request payload is encoded in the oracle). -/
def callApi (env : Env) (sends : List SendOutcome) : MRes :=
  makeRequest (shouldAllowInsecureTls env) 0 false sends

/-! ## Area-code resolver (`getAreaCodeForLocation`) -/

/-- Embedding of the static `PRONTO_AREA_CODES` location→zone table. -/
def PRONTO_AREA_CODES : List (String × String) :=
  [("Colombo", "1"), ("Colombo 01", "1"), ("Colombo 02", "1"),
   ("Colombo 03", "1"), ("Colombo 04", "1"), ("Colombo 05", "1"),
   ("Colombo 06", "1"), ("Colombo 07", "1"), ("Colombo 08", "1"),
   ("Colombo 09", "1"), ("Colombo 10", "1"), ("Colombo 11", "1"),
   ("Colombo 12", "1"), ("Colombo 13", "1"), ("Colombo 14", "1"),
   ("Colombo 15", "1"),
   ("Dehiwala", "2"), ("Mount Lavinia", "2"), ("Moratuwa", "2"),
   ("Kaduwela", "2"), ("Maharagama", "2"), ("Kesbewa", "2"),
   ("Homagama", "2"), ("Padukka", "2"), ("Seethawaka", "2"),
   ("Gampaha", "2"), ("Negombo", "2"), ("Wattala", "2"),
   ("Katana", "2"), ("Divulapitiya", "2"), ("Mirigama", "2"),
   ("Minuwangoda", "2"), ("Attanagalla", "2"), ("Biyagama", "2"),
   ("Dompe", "2"), ("Ja-Ela", "2"), ("Kelaniya", "2"),
   ("Mahara", "2"), ("Peliyagoda", "2"), ("Kalutara", "2"),
   ("Beruwala", "2"), ("Dodangoda", "2"), ("Horana", "2"),
   ("Ingiriya", "2"), ("Mathugama", "2"), ("Panadura", "2"),
   ("Walallavita", "2"),
   ("Kandy", "3"), ("Matale", "3"), ("Nuwara Eliya", "3"),
   ("Galle", "3"), ("Matara", "3"), ("Hambantota", "3"),
   ("Jaffna", "3"), ("Kilinochchi", "3"), ("Mullaitivu", "3"),
   ("Vavuniya", "3"), ("Mannar", "3"), ("Batticaloa", "3"),
   ("Ampara", "3"), ("Trincomalee", "3"), ("Kurunegala", "3"),
   ("Puttalam", "3"), ("Anuradhapura", "3"), ("Polonnaruwa", "3"),
   ("Badulla", "3"), ("Monaragala", "3"), ("Ratnapura", "3"),
   ("Kegalle", "3"),
   ("High Security Zone", "4"), ("Military Area", "4"),
   ("Restricted Zone", "4"),
   ("Special Area", "5"), ("Remote Area", "5"), ("Custom Zone", "5")]

/-- Exact (case-sensitive) lookup in the static table.  All table values
are non-empty strings, so the truthiness test of the source coincides with
key presence. -/
def areaCodeLookup (loc : String) : Option String :=
  (PRONTO_AREA_CODES.find? (fun p => p.1 == loc)).map (fun p => p.2)

/-- Embedding of `getAreaCodeForLocation`: trim; exact table match; else
case-insensitive substring match against representative city names, city
zone first, then greater-city, then outstation; else default to `3`. -/
def getAreaCodeForLocation (location : String) : String :=
  let normalizedLocation := jsTrim location
  match areaCodeLookup normalizedLocation with
  | some code => code
  | none =>
    let lowerLocation := jsToLower normalizedLocation
    if strContains lowerLocation "colombo" then "1"
    else if strContains lowerLocation "dehiwala" ||
            strContains lowerLocation "mount lavinia" ||
            strContains lowerLocation "moratuwa" ||
            strContains lowerLocation "gampaha" ||
            strContains lowerLocation "negombo" ||
            strContains lowerLocation "kalutara" then "2"
    else if strContains lowerLocation "kandy" ||
            strContains lowerLocation "galle" ||
            strContains lowerLocation "matara" ||
            strContains lowerLocation "jaffna" ||
            strContains lowerLocation "kurunegala" ||
            strContains lowerLocation "anuradhapura" then "3"
    else "3"

/-! ## Session store (`src/lib/repositories/paymentSessions.ts`) -/

/-- The implemented payment-session lifecycle states
(`PaymentSessionStatus`). -/
inductive Status where
  | PENDING : Status
  | COMPLETED : Status
  | FAILED : Status
deriving DecidableEq, Repr

/-- Embedding of `PaymentSessionRecord`, the persisted session row. -/
structure SessionRec where
  sessionId : String
  orderId : String
  amount : ℚ
  currency : String
  description : String
  status : Status
  senderName : String
  senderPhone : String
  senderAddress : String
  receiverName : String
  receiverPhone : String
  receiverAddress : String
  location : String
  weight : ℚ
  isCod : Bool
  sameDayDelivery : Bool
  isSensitive : Bool
  specialNotes : Option String := none
  prontoCustomerCode : Option String := none
  metadata : Option JObj := none
  prontoTrackingNumber : Option String := none
  prontoStatus : Option String := none
  prontoAreaCode : Option String := none
  prontoCost : Option JsNum := none
  prontoPayload : Option JObj := none
  prontoResponse : Option JObj := none
  createdAt : String
  updatedAt : String
deriving DecidableEq, Repr

/-- The session table: an association list keyed by `session_id` (the
primary key), insertion order preserved. -/
abbrev Store := List (String × SessionRec)

/-- Embedding of `getPaymentSession`: the row (if any) with the given
primary key. -/
def getPaymentSession (store : Store) (sessionId : String) : Option SessionRec :=
  (store.find? (fun p => p.1 == sessionId)).map (fun p => p.2)

/-- Replace the row with the given key, leaving the table unchanged when
the key is absent (an SQL `UPDATE` matching no row). -/
def setSession : Store → String → SessionRec → Store
  | [], _, _ => []
  | (k, v) :: rest, sessionId, r =>
    if k == sessionId then (k, r) :: rest
    else (k, v) :: setSession rest sessionId r

/-- Embedding of `UpdatePaymentSessionInput`: each field is `none` when
the key is absent from the partial update (or carries `undefined`, which
the source skips for these fields).  For the nullable carrier-outcome and
blob fields the inner `Option` is the stored SQL value (`none` = NULL). -/
structure UpdateInput where
  orderId : Option String := none
  amount : Option ℚ := none
  currency : Option String := none
  description : Option String := none
  status : Option Status := none
  senderName : Option String := none
  senderPhone : Option String := none
  senderAddress : Option String := none
  receiverName : Option String := none
  receiverPhone : Option String := none
  receiverAddress : Option String := none
  location : Option String := none
  weight : Option ℚ := none
  specialNotes : Option String := none
  prontoCustomerCode : Option String := none
  prontoTrackingNumber : Option (Option String) := none
  prontoStatus : Option (Option String) := none
  prontoAreaCode : Option (Option String) := none
  prontoCost : Option (Option JsNum) := none
  isCod : Option Bool := none
  sameDayDelivery : Option Bool := none
  isSensitive : Option Bool := none
  metadata : Option (Option JObj) := none
  prontoPayload : Option (Option JObj) := none
  prontoResponse : Option (Option JObj) := none
deriving DecidableEq, Repr

/-- Apply a partial update to a row: only present fields are written, and
`updated_at` is always set (the source always pushes it). -/
def applyUpdate (r : SessionRec) (u : UpdateInput) (now : String) : SessionRec :=
  { r with
    orderId := u.orderId.getD r.orderId
    amount := u.amount.getD r.amount
    currency := u.currency.getD r.currency
    description := u.description.getD r.description
    status := u.status.getD r.status
    senderName := u.senderName.getD r.senderName
    senderPhone := u.senderPhone.getD r.senderPhone
    senderAddress := u.senderAddress.getD r.senderAddress
    receiverName := u.receiverName.getD r.receiverName
    receiverPhone := u.receiverPhone.getD r.receiverPhone
    receiverAddress := u.receiverAddress.getD r.receiverAddress
    location := u.location.getD r.location
    weight := u.weight.getD r.weight
    specialNotes := (u.specialNotes.map some).getD r.specialNotes
    prontoCustomerCode := (u.prontoCustomerCode.map some).getD r.prontoCustomerCode
    prontoTrackingNumber := u.prontoTrackingNumber.getD r.prontoTrackingNumber
    prontoStatus := u.prontoStatus.getD r.prontoStatus
    prontoAreaCode := u.prontoAreaCode.getD r.prontoAreaCode
    prontoCost := u.prontoCost.getD r.prontoCost
    isCod := u.isCod.getD r.isCod
    sameDayDelivery := u.sameDayDelivery.getD r.sameDayDelivery
    isSensitive := u.isSensitive.getD r.isSensitive
    metadata := u.metadata.getD r.metadata
    prontoPayload := u.prontoPayload.getD r.prontoPayload
    prontoResponse := u.prontoResponse.getD r.prontoResponse
    updatedAt := now }

/-- Embedding of `updatePaymentSession`: run the keyed `UPDATE` (a no-op
when the key is absent), then re-read; a missing row afterwards throws.
Returns the table after the write together with the outcome. -/
def updatePaymentSession (store : Store) (sessionId : String)
    (u : UpdateInput) (now : String) : Store × Except JsErr SessionRec :=
  match getPaymentSession store sessionId with
  | none => (store, .error (jsError "Payment session not found after update"))
  | some r =>
    let r1 := applyUpdate r u now
    (setSession store sessionId r1, .ok r1)

/-- Input of `createPaymentSession` (`CreatePaymentSessionInput`). -/
structure CreateInput where
  sessionId : String
  orderId : String
  amount : ℚ
  currency : String
  description : String
  senderName : String
  senderPhone : String
  senderAddress : String
  receiverName : String
  receiverPhone : String
  receiverAddress : String
  location : String
  weight : ℚ
  isCod : Bool
  sameDayDelivery : Bool
  isSensitive : Bool
  specialNotes : Option String := none
  prontoCustomerCode : Option String := none
  prontoAreaCode : Option String := none
  prontoCost : Option JsNum := none
  metadata : Option JObj := none
deriving Repr

/-- Embedding of `createPaymentSession`: insert a fresh row with status
`PENDING` and both timestamps set to `now`; a duplicate primary key makes
the insert throw (sqlite primary-key constraint). -/
def createPaymentSession (store : Store) (data : CreateInput) (now : String) :
    Store × Except JsErr SessionRec :=
  match getPaymentSession store data.sessionId with
  | some _ => (store, .error (jsError "UNIQUE constraint failed: payment_sessions.session_id"))
  | none =>
    let r : SessionRec :=
      { sessionId := data.sessionId
        orderId := data.orderId
        amount := data.amount
        currency := data.currency
        description := data.description
        status := .PENDING
        senderName := data.senderName
        senderPhone := data.senderPhone
        senderAddress := data.senderAddress
        receiverName := data.receiverName
        receiverPhone := data.receiverPhone
        receiverAddress := data.receiverAddress
        location := data.location
        weight := data.weight
        isCod := data.isCod
        sameDayDelivery := data.sameDayDelivery
        isSensitive := data.isSensitive
        specialNotes := data.specialNotes
        prontoCustomerCode := data.prontoCustomerCode
        metadata := data.metadata
        prontoAreaCode := data.prontoAreaCode
        prontoCost := data.prontoCost
        createdAt := now
        updatedAt := now }
    (store ++ [(data.sessionId, r)], .ok r)

/-- One logged store or carrier operation, for ordering and
short-circuit claims.  An update records which `status` value it wrote,
if any. -/
inductive StoreOp where
  | getOp (id : String) : StoreOp
  | updStatus (id : String) (st : Option Status) : StoreOp
  | createOp (id : String) : StoreOp
  | sendOp : StoreOp
deriving DecidableEq, Repr

/-! ## Shipment orchestrator (`src/lib/prontoOrderService.ts`) -/

/-- An application-level error: a zod validation failure or a plain
JavaScript error (`handleError` branches on this distinction). -/
inductive AppErr where
  | zod (message : String) : AppErr
  | js (e : JsErr) : AppErr
deriving DecidableEq, Repr

/-- The `message` of an application-level error, as read by the webhook's
shipment-failure handler. -/
def AppErr.message : AppErr → String
  | .zod m => m
  | .js e => e.message

/-- Embedding of `ProntoShipmentInput`
(`z.infer` of `ProntoCreateShipmentSchema`). -/
structure ShipmentInput where
  orderId : String
  senderName : String
  senderPhone : String
  senderAddress : String
  receiverName : String
  receiverAddress : String
  receiverPhone : String
  itemValue : ℚ
  weight : ℚ
  location : String
  isCod : Bool
  sameDayDelivery : Bool
  isSensitive : Bool
  specialNotes : Option String := none
  customerCode : Option String := none
deriving DecidableEq, Repr

/-- Embedding of `String.prototype.padStart(4, "0")`. -/
def padStart4 (s : String) : String :=
  if s.length < 4 then ⟨List.replicate (4 - s.length) '0'⟩ ++ s else s

/-- The `shipmentPayload` object built by `createProntoShipment` (persisted
later as `prontoPayload`).  `tno` is `none` when the carrier body carried
no tracking number (`undefined` in the source); `ivalue` is serialized
with `toString` in the source and kept as the numeric value here. -/
structure InsertPayload where
  tno : Option String
  senName : String
  senPhone : String
  senAddress : String
  recName : String
  recAddress : String
  recPhone : String
  ivalue : ℚ
  samedayDel : String
  senc : String
  spNote : Option String
  prontoLc : String
deriving DecidableEq, Repr

/-- Embedding of `ShipmentResult`. -/
structure ShipmentResult where
  trackingNumber : Option String
  cost : JsNum
  status : String
  areaCode : String
  response : ProntoBody
  payload : InsertPayload
deriving DecidableEq, Repr

/-- Result of `createProntoShipment`: outcome, unconsumed oracle tail, and
number of physical sends consumed. -/
structure ShipCallRes where
  result : Except JsErr ShipmentResult
  rest : List SendOutcome
  used : Nat
deriving Repr

/-- Embedding of `createProntoShipment`: resolve the zone, request a
tracking number, quote the cost, insert the shipment, then parse the cost
and check the insertion status.  The carrier-side request payloads
(customer code, `tno_code` COD pool selector, wire field renaming) are
absorbed by the send oracle.  Note the source parses the cost only after
the insert call, and a missing `live_amount` wrapper throws there before
the insertion-status check; a missing `amount` leaf coerces to the string
`undefined`, hence `NaN`. -/
def createProntoShipment (env : Env) (payload : ShipmentInput)
    (sends : List SendOutcome) : ShipCallRes :=
  let areaCode := getAreaCodeForLocation payload.location
  let t := callApi env sends
  match t.result with
  | .error e => ⟨.error e, t.rest, t.used⟩
  | .ok trackingResponse =>
    match trackingResponse.emp_trackingno with
    | none => ⟨.error (jsError "TypeError: cannot read tno of undefined"), t.rest, t.used⟩
    | some trackingNumber =>
      let c := callApi env t.rest
      match c.result with
      | .error e => ⟨.error e, c.rest, t.used + c.used⟩
      | .ok costResponse =>
        let shipmentPayload : InsertPayload :=
          { tno := trackingNumber
            senName := payload.senderName
            senPhone := payload.senderPhone
            senAddress := payload.senderAddress
            recName := payload.receiverName
            recAddress := payload.receiverAddress
            recPhone := payload.receiverPhone
            ivalue := payload.itemValue
            samedayDel := if payload.sameDayDelivery then "yes" else "no"
            senc := if payload.isSensitive then "yes" else "no"
            spNote := payload.specialNotes
            prontoLc := padStart4 areaCode }
        let i := callApi env c.rest
        match i.result with
        | .error e => ⟨.error e, i.rest, t.used + c.used + i.used⟩
        | .ok shipmentResponse =>
          match costResponse.live_amount with
          | none =>
            ⟨.error (jsError "TypeError: cannot read amount of undefined"),
             i.rest, t.used + c.used + i.used⟩
          | some amountField =>
            let cost := jsParseFloat (amountField.getD "undefined")
            if shipmentResponse.status != "1" then
              ⟨.error (jsError ("Shipment creation failed: " ++
                 (shipmentResponse.status_ref.getD "Unknown error"))),
               i.rest, t.used + c.used + i.used⟩
            else
              ⟨.ok { trackingNumber := trackingNumber
                     cost := cost
                     status := shipmentResponse.status
                     areaCode := areaCode
                     response := shipmentResponse
                     payload := shipmentPayload },
               i.rest, t.used + c.used + i.used⟩

/-- Embedding of `ProntoCreateShipmentSchema.parse` on the object
reconstructed from a stored session (the validation layer is specified as
a black-box check; these are exactly the zod constraints of the schema). -/
def parseShipmentInput (s : SessionRec) : Except AppErr ShipmentInput :=
  if 1 ≤ s.orderId.length ∧ 1 ≤ s.senderName.length ∧
     3 ≤ s.senderPhone.length ∧ 3 ≤ s.senderAddress.length ∧
     1 ≤ s.receiverName.length ∧ 1 ≤ s.receiverAddress.length ∧
     1 ≤ s.receiverPhone.length ∧ 0 ≤ s.amount ∧
     1/10 ≤ s.weight ∧ s.weight ≤ 100 ∧ 1 ≤ s.location.length then
    .ok { orderId := s.orderId
          senderName := s.senderName
          senderPhone := s.senderPhone
          senderAddress := s.senderAddress
          receiverName := s.receiverName
          receiverAddress := s.receiverAddress
          receiverPhone := s.receiverPhone
          itemValue := s.amount
          weight := s.weight
          location := s.location
          isCod := s.isCod
          sameDayDelivery := s.sameDayDelivery
          isSensitive := s.isSensitive
          specialNotes := s.specialNotes
          customerCode := s.prontoCustomerCode }
  else
    .error (.zod "ZodError: invalid shipment input")

/-- Serialization of the persisted `prontoPayload` blob (JSON fields with
`undefined` values are dropped by `JSON.stringify`). -/
def insertPayloadToJObj (p : InsertPayload) : JObj :=
  JObj.ofList
    ((match p.tno with | some t => [("tno", JVal.str t)] | none => []) ++
     [("senName", JVal.str p.senName),
      ("senPhone", JVal.str p.senPhone),
      ("senAddress", JVal.str p.senAddress),
      ("recName", JVal.str p.recName),
      ("recAddress", JVal.str p.recAddress),
      ("recPhone", JVal.str p.recPhone),
      ("ivalue", JVal.num (.num p.ivalue)),
      ("samedayDel", JVal.str p.samedayDel),
      ("senc", JVal.str p.senc)] ++
     (match p.spNote with | some t => [("spNote", JVal.str t)] | none => []) ++
     [("prontoLc", JVal.str p.prontoLc)])

/-- Serialization of a carrier response body back to a JSON object, for
the persisted `prontoResponse` / metadata blobs. -/
def prontoBodyToJObj (b : ProntoBody) : JObj :=
  JObj.ofList
    ([("status", JVal.str b.status)] ++
     (match b.status_ref with | some t => [("status_ref", JVal.str t)] | none => []) ++
     (match b.live_amount with
      | some a =>
        [("live_amount", JVal.obj (JObj.ofList
           (match a with | some s => [("amount", JVal.str s)] | none => [])))]
      | none => []) ++
     (match b.emp_trackingno with
      | some a =>
        [("emp_trackingno", JVal.obj (JObj.ofList
           (match a with | some s => [("tno", JVal.str s)] | none => [])))]
      | none => []) ++
     (match b.insertion_fb with | some t => [("insertion_fb", JVal.str t)] | none => []))

/-- The update `createShipmentForSession` persists after a successful
carrier shipment: the carrier outcome fields plus `status = COMPLETED`
(source lines 113–122). -/
def shipmentSuccessUpdate (shipment : ShipmentResult) : UpdateInput :=
  { prontoTrackingNumber := shipment.trackingNumber.map some
    prontoStatus := some (some (if shipment.status == "1"
      then "SHIPMENT_CREATED" else "TRACKING_GENERATED"))
    prontoCost := some (some shipment.cost)
    prontoAreaCode := some (some shipment.areaCode)
    prontoPayload := some (some (insertPayloadToJObj shipment.payload))
    prontoResponse := some (some (prontoBodyToJObj shipment.response))
    status := some .COMPLETED }

/-- The value returned by `createShipmentForSession` on success
(`sessionId`, `orderId`, and the spread shipment result). -/
structure ShipOut where
  sessionId : String
  orderId : String
  shipment : ShipmentResult
deriving DecidableEq, Repr

/-- Result of `createShipmentForSession`: outcome, session table after the
call, trace of store/carrier operations, unconsumed oracle tail. -/
structure ShipRun where
  result : Except AppErr ShipOut
  store : Store
  trace : List StoreOp
  rest : List SendOutcome
deriving Repr

/-- Embedding of `createShipmentForSession`: load the session, re-derive
the carrier request from its fields (validated by the schema), run
`createProntoShipment`, and on success persist the carrier outcome with
`status = COMPLETED`. -/
def createShipmentForSession (env : Env) (store : Store) (sessionId : String)
    (sends : List SendOutcome) (now : String) : ShipRun :=
  match getPaymentSession store sessionId with
  | none =>
    ⟨.error (.js (jsError ("Payment session not found for " ++ sessionId))),
     store, [.getOp sessionId], sends⟩
  | some session =>
    match parseShipmentInput session with
    | .error zerr => ⟨.error zerr, store, [.getOp sessionId], sends⟩
    | .ok shipmentInput =>
      let c := createProntoShipment env shipmentInput sends
      match c.result with
      | .error e =>
        ⟨.error (.js e), store,
         .getOp sessionId :: List.replicate c.used .sendOp, c.rest⟩
      | .ok shipment =>
        match updatePaymentSession store sessionId
            (shipmentSuccessUpdate shipment) now with
        | (store1, .error e) =>
          ⟨.error (.js e), store1,
           .getOp sessionId :: (List.replicate c.used .sendOp ++
             [.updStatus sessionId (some .COMPLETED)]), c.rest⟩
        | (store1, .ok _) =>
          ⟨.ok ⟨sessionId, session.orderId, shipment⟩, store1,
           .getOp sessionId :: (List.replicate c.used .sendOp ++
             [.updStatus sessionId (some .COMPLETED)]), c.rest⟩

/-! ## Webhook ingress (`src/app/api/ipg/webhook/route.ts`) -/

/-- Embedding of the webhook's `getString` helper: a non-empty string
value, else `null`. -/
def getString (value : Option JVal) : Option String :=
  match value with
  | some (.str s) => if s.length > 0 then some s else none
  | _ => none

/-- Embedding of `extractSessionId`: try `sessionId`, then `session.id`,
then `data.session.id`; first non-empty string wins. -/
def extractSessionId (payload : JObj) : Option String :=
  match getString (jlookup payload "sessionId") with
  | some direct => some direct
  | none =>
    let fromSession :=
      match jlookup payload "session" with
      | some (.obj o) => getString (jlookup o "id")
      | _ => none
    match fromSession with
    | some nestedValue => some nestedValue
    | none =>
      match jlookup payload "data" with
      | some (.obj d) =>
        match jlookup d "session" with
        | some (.obj nestedSession) => getString (jlookup nestedSession "id")
        | _ => none
      | _ => none

/-- The success sentinels recognised by the webhook. -/
def successValues : List String := ["SUCCESS", "CAPTURED", "APPROVED"]

/-- Embedding of `isPaymentSuccessful`: any of `result`, `status`,
`paymentStatus`, `transaction.status` is (case-insensitively) one of the
success sentinels. -/
def isPaymentSuccessful (payload : JObj) : Bool :=
  let candidates : List (Option JVal) :=
    [jlookup payload "result", jlookup payload "status",
     jlookup payload "paymentStatus"] ++
    (match jlookup payload "transaction" with
     | some (.obj t) => [jlookup t "status"]
     | _ => [])
  candidates.any fun candidate =>
    match candidate with
    | some (.str s) => successValues.contains (jsToUpper s)
    | _ => false

/-- The observable shape of an API JSON response: HTTP status, `success`
flag, `error.code` when failing, and the `data.paymentStatus` field of the
webhook's success responses. -/
structure ApiRes where
  httpStatus : Nat
  success : Bool
  errorCode : Option String := none
  paymentStatus : Option String := none
deriving DecidableEq, Repr

/-- Embedding of `handleError` for the errors reachable in the modelled
flows: a `ZodError` yields 400 `VALIDATION_FAILED`; every other error
yields 500 `SERVER_ERROR` (the jsonwebtoken branch is unreachable: no
modelled flow constructs such errors). -/
def handleError (error : AppErr) : ApiRes :=
  match error with
  | .zod _ => ⟨400, false, some "VALIDATION_FAILED", none⟩
  | .js _ => ⟨500, false, some "SERVER_ERROR", none⟩

/-- Embedding of the webhook's secret check, positively phrased: the
source rejects when `!secret || secret !== process.env.IPG_WEBHOOK_SECRET`
(absent header, empty header, or mismatch — including an unset
environment secret). -/
def secretValid (secretHeader : Option String) (env : Env) : Bool :=
  match secretHeader with
  | none => false
  | some s => !(s == "") && (some s == env.ipgWebhookSecret)

/-- Result of one webhook request: response, session table afterwards,
trace of store/carrier operations, unconsumed send oracle. -/
structure WebhookRun where
  response : ApiRes
  store : Store
  trace : List StoreOp
  rest : List SendOutcome
deriving Repr

/-- The metadata object the webhook writes at its transition step: the
previous metadata spread together with `lastWebhookAt` and
`lastWebhookPayload` (source lines 120–124; the two webhook keys replace
any previous binding). -/
def webhookMetadata (session : SessionRec) (payload : JObj) (now : String) : JObj :=
  jsSet (jsSet (session.metadata.getD .nil)
    "lastWebhookAt" (.str now)) "lastWebhookPayload" (.obj payload)

/-- The transition update the webhook issues before any shipment attempt:
`status` to the terminal value for the outcome, plus the merged
metadata. -/
def webhookTransition (success : Bool) (metadata : JObj) : UpdateInput :=
  { status := some (if success then Status.COMPLETED else Status.FAILED)
    metadata := some (some metadata) }

/-- The update the webhook issues when the shipment orchestration fails:
`prontoStatus = FAILED` plus the merged metadata extended with
`lastShipmentError` (the in-memory metadata from the transition step, not
a re-read). -/
def webhookShipmentFailure (metadata : JObj) (shipmentError : AppErr) : UpdateInput :=
  { prontoStatus := some (some "FAILED")
    metadata := some (some (jsSet metadata
      "lastShipmentError" (.str shipmentError.message))) }

/-- Embedding of `processWebhook`.  `body` is the parsed JSON request
body; `none` models a malformed body, which the source turns into an
empty object.  Steps: secret check; session-id extraction; session load;
success determination; transition write (status + merged metadata);
then, on success, the shipment orchestration, whose failure is persisted
(`prontoStatus = FAILED`, `lastShipmentError`) before the error
propagates to `handleError`. -/
def processWebhook (env : Env) (secretHeader : Option String)
    (body : Option JObj) (store : Store) (sends : List SendOutcome)
    (now : String) : WebhookRun :=
  if !(secretValid secretHeader env) then
    ⟨⟨401, false, some "UNAUTHORIZED", none⟩, store, [], sends⟩
  else
    let payload := body.getD .nil
    match extractSessionId payload with
    | none => ⟨⟨400, false, some "INVALID_PAYLOAD", none⟩, store, [], sends⟩
    | some sessionId =>
      match getPaymentSession store sessionId with
      | none =>
        ⟨⟨404, false, some "SESSION_NOT_FOUND", none⟩, store,
         [.getOp sessionId], sends⟩
      | some session =>
        let success := isPaymentSuccessful payload
        let metadata := webhookMetadata session payload now
        match updatePaymentSession store sessionId
            (webhookTransition success metadata) now with
        | (store1, .error e) =>
          ⟨handleError (.js e), store1,
           [.getOp sessionId,
            .updStatus sessionId (some (if success then .COMPLETED else .FAILED))],
           sends⟩
        | (store1, .ok _) =>
          if !success then
            ⟨⟨200, true, none, some "FAILED"⟩, store1,
             [.getOp sessionId, .updStatus sessionId (some .FAILED)], sends⟩
          else
            let ship := createShipmentForSession env store1 sessionId sends now
            match ship.result with
            | .ok _ =>
              ⟨⟨200, true, none, some "COMPLETED"⟩, ship.store,
               .getOp sessionId :: .updStatus sessionId (some .COMPLETED) ::
                 ship.trace, ship.rest⟩
            | .error shipmentError =>
              match updatePaymentSession ship.store sessionId
                  (webhookShipmentFailure metadata shipmentError) now with
              | (store2, _) =>
                ⟨handleError shipmentError, store2,
                 .getOp sessionId :: .updStatus sessionId (some .COMPLETED) ::
                   (ship.trace ++ [.updStatus sessionId none]), ship.rest⟩

/-! ## Session creation (`src/app/api/payments/create-session/route.ts`) -/

/-- A sender/receiver block (`ShipmentPartySchema`). -/
structure Party where
  name : String
  phone : String
  address : String
deriving DecidableEq, Repr

/-- The shipment block of a session-creation request
(`ShipmentDetailsSchema`). -/
structure ShipmentDetails where
  location : String
  weight : ℚ
  isCod : Bool
  sameDayDelivery : Bool
  isSensitive : Bool
  specialNotes : Option String := none
  customerCode : Option String := none
deriving DecidableEq, Repr

/-- A validated session-creation request
(`CreatePaymentSessionSchema.parse` output; validation is the specified
black-box step). -/
structure CreateSessionInput where
  amount : ℚ
  currency : Option String := none
  description : String
  orderId : Option String := none
  sender : Party
  receiver : Party
  shipment : ShipmentDetails
deriving DecidableEq, Repr

/-- Outcome of the one payment-gateway HTTP call: the fetch (or body
parse) threw, or a response arrived with its HTTP ok flag, `result`
field, `session.id` field, `error.explanation` / `error.cause` fields,
and the raw parsed body (persisted into metadata). -/
inductive GatewayOutcome where
  | thrown (e : JsErr) : GatewayOutcome
  | resp (ok : Bool) (result : Option String) (sessionIdField : Option String)
      (errorExplanation : Option String) (errorCause : Option String)
      (raw : JObj) : GatewayOutcome
deriving Repr

/-- JavaScript truthiness of an optional string (`undefined` and the
empty string are falsy). -/
def truthy : Option String → Bool
  | none => false
  | some s => !(s == "")

/-- JavaScript `a || b` on optional strings. -/
def jsOrOpt (a b : Option String) : Option String :=
  if truthy a then a else b

/-- Result of the delivery-charge quote block of the route (its lines
87–111): the quote body and the finite parsed charge, or the error the
route throws. -/
structure QuoteRes where
  result : Except JsErr (ProntoBody × ℚ)
  rest : List SendOutcome
  used : Nat
deriving Repr

/-- Embedding of the route's quote block: call `calculateShippingCost`;
a failed call becomes the `Unable to calculate delivery charges...`
error; then `Number.parseFloat` of `live_amount?.amount` (a non-string
value is replaced by the empty string) must be finite, else the
`Pronto did not return a valid delivery charge...` error. -/
def quoteStep (env : Env) (sends : List SendOutcome) : QuoteRes :=
  let m := callApi env sends
  match m.result with
  | .error _ =>
    ⟨.error (jsError "Unable to calculate delivery charges for this location. Please verify the destination and try again."),
     m.rest, m.used⟩
  | .ok shippingQuote =>
    let rawDeliveryCharge : Option String :=
      match shippingQuote.live_amount with
      | some (some s) => some s
      | _ => none
    let parsedDeliveryCharge := jsParseFloat (rawDeliveryCharge.getD "")
    match parsedDeliveryCharge with
    | .num q => ⟨.ok (shippingQuote, q), m.rest, m.used⟩
    | _ =>
      ⟨.error (jsError "Pronto did not return a valid delivery charge for this request."),
       m.rest, m.used⟩

/-- Result of one session-creation request: response, session table
afterwards, whether the payment-gateway call was issued, the persisted
row (if the run reached persistence), and the unconsumed send oracle. -/
structure RouteRun where
  response : ApiRes
  store : Store
  gatewayCalled : Bool
  created : Option SessionRec
  rest : List SendOutcome
deriving Repr

/-- Embedding of the route's `POST`: environment checks, currency
resolution, zone resolution, delivery-charge quote (`quoteStep`), total
computation, gateway session creation, and persistence of the new
`PENDING` session.  `uuid` models `crypto.randomUUID()`. -/
def createSessionPOST (env : Env) (input : CreateSessionInput) (uuid : String)
    (store : Store) (sends : List SendOutcome) (gw : GatewayOutcome)
    (now : String) : RouteRun :=
  if !(truthy env.mpgsMerchantId && truthy env.mpgsApiPassword &&
       truthy env.mpgsApiBaseUrl && truthy env.baseUrl) then
    ⟨handleError (.js (jsError "Configuration error: missing MPGS configuration")),
     store, false, none, sends⟩
  else
    let orderId := (jsOrOpt input.orderId (some uuid)).getD uuid
    let currency? := jsOrOpt input.currency env.mpgsCurrency
    if !(truthy currency?) then
      ⟨handleError (.js (jsError "Configuration error: Missing currency (provide currency in the request or set MPGS_CURRENCY)")),
       store, false, none, sends⟩
    else
      let currency := currency?.getD ""
      let prontoCustomerCode :=
        (jsOrOpt input.shipment.customerCode
          (jsOrOpt env.prontoCustomerCode (some "A001"))).getD "A001"
      let prontoAreaCode := getAreaCodeForLocation input.shipment.location
      let q := quoteStep env sends
      match q.result with
      | .error e => ⟨handleError (.js e), store, false, none, q.rest⟩
      | .ok (shippingQuote, parsedDeliveryCharge) =>
        let deliveryCharge := jsToFixed2 parsedDeliveryCharge
        let totalAmount := jsToFixed2 (input.amount + deliveryCharge)
        let pricingBreakdown := JObj.ofList
          [("itemAmount", JVal.num (.num input.amount)),
           ("deliveryCharge", JVal.num (.num deliveryCharge)),
           ("totalAmount", JVal.num (.num totalAmount)),
           ("currency", JVal.str currency)]
        match gw with
        | .thrown e => ⟨handleError (.js e), store, true, none, q.rest⟩
        | .resp ok result sessionIdField errorExplanation errorCause raw =>
          if !ok then
            ⟨handleError (.js (jsError ((jsOrOpt errorExplanation
               (jsOrOpt errorCause (some "Gateway error during session creation."))).getD ""))),
             store, true, none, q.rest⟩
          else if !(result == some "SUCCESS" && truthy sessionIdField) then
            ⟨handleError (.js (jsError ((jsOrOpt errorExplanation
               (some "Gateway returned non-SUCCESS result for session creation.")).getD ""))),
             store, true, none, q.rest⟩
          else
            let sessionId := sessionIdField.getD ""
            let data : CreateInput :=
              { sessionId := sessionId
                orderId := orderId
                amount := totalAmount
                currency := currency
                description := input.description
                senderName := input.sender.name
                senderPhone := input.sender.phone
                senderAddress := input.sender.address
                receiverName := input.receiver.name
                receiverPhone := input.receiver.phone
                receiverAddress := input.receiver.address
                location := input.shipment.location
                weight := input.shipment.weight
                isCod := input.shipment.isCod
                sameDayDelivery := input.shipment.sameDayDelivery
                isSensitive := input.shipment.isSensitive
                specialNotes := input.shipment.specialNotes
                prontoCustomerCode := some prontoCustomerCode
                prontoAreaCode := some prontoAreaCode
                prontoCost := some (.num deliveryCharge)
                metadata := some (JObj.ofList
                  [("pricing", JVal.obj pricingBreakdown),
                   ("shippingQuote", JVal.obj (JObj.ofList
                      [("areaCode", JVal.str prontoAreaCode),
                       ("customerCode", JVal.str prontoCustomerCode),
                       ("response", JVal.obj (prontoBodyToJObj shippingQuote))])),
                   ("gatewayResponse", JVal.obj raw)]) }
            match createPaymentSession store data now with
            | (store1, .error e) =>
              ⟨handleError (.js e), store1, true, none, q.rest⟩
            | (store1, .ok r) =>
              ⟨⟨201, true, none, none⟩, store1, true, some r, q.rest⟩

/-! ## Operation sequences over the shared store

The store is the only shared mutable resource; a system run is a sequence
of the three store-touching operations the specification names:
session creation, a webhook delivery, and a shipment orchestration. -/

/-- One inbound operation together with its request data and the
behaviour of the external collaborators during it. -/
inductive Op where
  | webhook (secretHeader : Option String) (body : Option JObj)
      (sends : List SendOutcome) (now : String) : Op
  | createSession (input : CreateSessionInput) (uuid : String)
      (sends : List SendOutcome) (gw : GatewayOutcome) (now : String) : Op
  | orchestrate (sessionId : String) (sends : List SendOutcome)
      (now : String) : Op

/-- Effect of one operation on the session table. -/
def step (env : Env) (store : Store) : Op → Store
  | .webhook h b sends now => (processWebhook env h b store sends now).store
  | .createSession input uuid sends gw now =>
    (createSessionPOST env input uuid store sends gw now).store
  | .orchestrate sid sends now =>
    (createShipmentForSession env store sid sends now).store

/-- Effect of a sequence of operations on the session table. -/
def runOps (env : Env) (store : Store) : List Op → Store
  | [] => store
  | op :: rest => runOps env (step env store op) rest

/-! ## Observers (verification glue, not source)

Closed-form projections of a store used to state claims without
existential binders. -/

/-- The status of the stored session with the given id, if present. -/
def sessionStatus (store : Store) (sid : String) : Option Status :=
  (getPaymentSession store sid).map (fun r => r.status)

/-- The `prontoStatus` of the stored session with the given id. -/
def sessionProntoStatus (store : Store) (sid : String) : Option (Option String) :=
  (getPaymentSession store sid).map (fun r => r.prontoStatus)

/-- A metadata field of the stored session with the given id. -/
def sessionMetaField (store : Store) (sid k : String) : Option JVal :=
  match getPaymentSession store sid with
  | some r => jlookup (r.metadata.getD .nil) k
  | none => none

/-- A field of the `pricing` object inside a session's metadata. -/
def metaPricingField (r : SessionRec) (k : String) : Option JVal :=
  match jlookup (r.metadata.getD .nil) "pricing" with
  | some (.obj p) => jlookup p k
  | _ => none

/-- Does any string value inside the session's metadata equal `s`? -/
def sessionMetaMentions (store : Store) (sid s : String) : Bool :=
  match getPaymentSession store sid with
  | some r => jobjMentions (r.metadata.getD .nil) s
  | none => false

/-- The `amount` of the session persisted by a session-creation run. -/
def createdAmount (run : RouteRun) : Option ℚ :=
  run.created.map (fun r => r.amount)

/-- The `prontoCost` of the session persisted by a session-creation run. -/
def createdProntoCost (run : RouteRun) : Option (Option JsNum) :=
  run.created.map (fun r => r.prontoCost)

/-- A `metadata.pricing` field of the session persisted by a
session-creation run. -/
def createdPricingField (run : RouteRun) (k : String) : Option (Option JVal) :=
  run.created.map (fun r => metaPricingField r k)

/-- Is an `Except` a success? -/
def isOkE {ε α : Type} : Except ε α → Bool
  | .ok _ => true
  | .error _ => false

/-- The cost carried by a successful `createProntoShipment` outcome. -/
def shipCost (r : ShipCallRes) : Option JsNum :=
  match r.result with
  | .ok s => some s.cost
  | .error _ => none

/-! ## Concrete fixtures for witnesses and counterexamples -/

/-- A deployment configuration for concrete runs (all gateway and webhook
configuration present; the Pronto base URL is not a UAT endpoint, so the
TLS-relaxation predicate is off). -/
def testEnv : Env :=
  { ipgWebhookSecret := some "whsec-1"
    prontoCustomerCode := some "A001"
    prontoApiBaseUrl := some "https://pronto.example/api"
    mpgsMerchantId := some "MID1"
    mpgsApiPassword := some "mpw"
    mpgsApiBaseUrl := some "https://mpgs.example"
    baseUrl := some "https://app.example"
    mpgsCurrency := some "LKR" }

/-- A stored `PENDING` session awaiting its webhook. -/
def sampleSession : SessionRec :=
  { sessionId := "S1"
    orderId := "ORD1"
    amount := 1450
    currency := "LKR"
    description := "test order"
    status := .PENDING
    senderName := "Alice Sender"
    senderPhone := "0771234567"
    senderAddress := "1 Sender Street Colombo"
    receiverName := "Bob Receiver"
    receiverPhone := "0777654321"
    receiverAddress := "2 Receiver Road Vavuniya"
    location := "Vavuniya"
    weight := 1
    isCod := false
    sameDayDelivery := false
    isSensitive := false
    createdAt := "2026-01-01T00:00:00.000Z"
    updatedAt := "2026-01-01T00:00:00.000Z" }

/-- A one-session table. -/
def store0 : Store := [("S1", sampleSession)]

/-- A webhook payload reporting payment success for session `S1`. -/
def successPayload : JObj :=
  JObj.ofList [("sessionId", .str "S1"), ("result", .str "SUCCESS")]

/-- A webhook payload reporting payment failure for session `S1`. -/
def failurePayload : JObj :=
  JObj.ofList [("sessionId", .str "S1"), ("result", .str "DECLINED")]

/-- A successful tracking-number allocation response. -/
def trackOkSend : SendOutcome :=
  .resp true 200 { status := "1", emp_trackingno := some (some "PRN1") }

/-- A successful cost quote of 450.00. -/
def costOkSend : SendOutcome :=
  .resp true 200 { status := "1", live_amount := some (some "450.00") }

/-- A successful shipment insertion. -/
def insertOkSend : SendOutcome :=
  .resp true 200 { status := "1", insertion_fb := some "inserted" }

/-- A carrier-side shipment rejection (sentinel body status `0`). -/
def insertRejectSend : SendOutcome :=
  .resp true 200 { status := "0", status_ref := some "invalid consignee" }

/-- Carrier behaviour for a fully successful shipment orchestration. -/
def goodShipmentSends : List SendOutcome := [trackOkSend, costOkSend, insertOkSend]

/-- Carrier behaviour where the final insertion is rejected. -/
def rejectShipmentSends : List SendOutcome := [trackOkSend, costOkSend, insertRejectSend]

/-- Carrier behaviour where the cost quote carries a non-numeric amount
but every call succeeds. -/
def nanCostSends : List SendOutcome :=
  [trackOkSend, .resp true 200 { status := "1", live_amount := some (some "abc") },
   insertOkSend]

/-- The shipment input reconstructed from `sampleSession`. -/
def sampleShipmentInput : ShipmentInput :=
  { orderId := "ORD1"
    senderName := "Alice Sender"
    senderPhone := "0771234567"
    senderAddress := "1 Sender Street Colombo"
    receiverName := "Bob Receiver"
    receiverAddress := "2 Receiver Road Vavuniya"
    receiverPhone := "0777654321"
    itemValue := 1450
    weight := 1
    location := "Vavuniya"
    isCod := false
    sameDayDelivery := false
    isSensitive := false }

/-- A session-creation request: 1000 LKR of items, 1 kg to Vavuniya. -/
def sampleCreateInput : CreateSessionInput :=
  { amount := 1000
    currency := some "LKR"
    description := "test order"
    orderId := some "ORD1"
    sender := ⟨"Alice Sender", "0771234567", "1 Sender Street Colombo"⟩
    receiver := ⟨"Bob Receiver", "0777654321", "2 Receiver Road Vavuniya"⟩
    shipment :=
      { location := "Vavuniya"
        weight := 1
        isCod := false
        sameDayDelivery := false
        isSensitive := false } }

/-- A successful gateway response issuing session id `S1`. -/
def gatewayOkResp : GatewayOutcome :=
  .resp true (some "SUCCESS") (some "S1") none none
    (JObj.ofList [("result", .str "SUCCESS")])

/-! ## Helper lemmas -/

theorem beq_symm_false (a b : String) (h : (a == b) = false) :
    (b == a) = false := by
  simp only [beq_eq_false_iff_ne] at h ⊢
  exact h.symm

theorem jlookup_jsSet_same (o : JObj) (k : String) (v : JVal) :
    jlookup (jsSet o k v) k = some v := by
  match o with
  | .nil => simp [jsSet, jlookup]
  | .cons k0 v0 rest =>
    by_cases h : k0 == k
    · simp [jsSet, h, jlookup]
    · simp [jsSet, h, jlookup, jlookup_jsSet_same rest k v]

theorem jlookup_jsSet_other (o : JObj) (k k1 : String) (v : JVal)
    (h : (k1 == k) = false) :
    jlookup (jsSet o k v) k1 = jlookup o k1 := by
  have h1 : (k == k1) = false := beq_symm_false k1 k h
  match o with
  | .nil => simp [jsSet, jlookup, h1]
  | .cons k0 v0 rest =>
    by_cases h0 : k0 == k
    · have hk : k0 = k := by simpa using h0
      subst hk
      simp [jsSet, jlookup, h1]
    · by_cases hb : k0 == k1 <;>
        simp [jsSet, h0, jlookup, hb, jlookup_jsSet_other rest k k1 v h]

theorem getPaymentSession_cons (k : String) (v : SessionRec) (rest : Store)
    (sid : String) :
    getPaymentSession ((k, v) :: rest) sid =
      if k == sid then some v else getPaymentSession rest sid := by
  by_cases hk : k == sid <;> simp [getPaymentSession, List.find?, hk]

theorem getPaymentSession_setSession_self (store : Store) (sid : String)
    (r x : SessionRec) (h : getPaymentSession store sid = some x) :
    getPaymentSession (setSession store sid r) sid = some r := by
  induction store with
  | nil => simp [getPaymentSession] at h
  | cons p rest ih =>
    obtain ⟨k, v⟩ := p
    by_cases hk : k == sid
    · simp [setSession, hk, getPaymentSession_cons]
    · rw [getPaymentSession_cons, if_neg (by simpa using hk)] at h
      simp only [setSession, hk, if_false, Bool.false_eq_true]
      rw [getPaymentSession_cons, if_neg (by simpa using hk)]
      exact ih h

theorem getPaymentSession_setSession_other (store : Store) (sid sid1 : String)
    (r : SessionRec) (h : (sid1 == sid) = false) :
    getPaymentSession (setSession store sid r) sid1 =
      getPaymentSession store sid1 := by
  induction store with
  | nil => simp [setSession]
  | cons p rest ih =>
    obtain ⟨k, v⟩ := p
    by_cases hk : k == sid
    · have hks : k = sid := by simpa using hk
      subst hks
      have h1 : (k == sid1) = false := beq_symm_false sid1 k h
      simp [setSession, getPaymentSession_cons, h1]
    · simp only [setSession, hk, if_false, Bool.false_eq_true]
      rw [getPaymentSession_cons, getPaymentSession_cons, ih]

theorem getPaymentSession_append_of_found (store : Store) (sid : String)
    (x : SessionRec) (tail : Store)
    (h : getPaymentSession store sid = some x) :
    getPaymentSession (store ++ tail) sid = some x := by
  induction store with
  | nil => simp [getPaymentSession] at h
  | cons p rest ih =>
    obtain ⟨k, v⟩ := p
    rw [getPaymentSession_cons] at h
    rw [List.cons_append, getPaymentSession_cons]
    by_cases hk : k == sid
    · rwa [if_pos hk] at h ⊢
    · rw [if_neg hk] at h ⊢
      exact ih h

theorem containsSub_isInfix {needle hay : List Char}
    (h : containsSub needle hay = true) : needle <:+: hay := by
  induction hay with
  | nil =>
    rw [containsSub] at h
    have : needle = [] := List.prefix_nil.mp (List.isPrefixOf_iff_prefix.mp h)
    simp [this]
  | cons c rest ih =>
    rw [containsSub, Bool.or_eq_true] at h
    rcases h with h | h
    · exact (List.isPrefixOf_iff_prefix.mp h).isInfix
    · exact List.infix_cons (ih h)

theorem strContains_char_mem {hay needle : String} {c : Char}
    (hc : c ∈ needle.data) (h : strContains hay needle = true) : c ∈ hay.data :=
  (containsSub_isInfix h).subset hc

theorem strContains_false_of_missing_char (hay needle : String) (c : Char)
    (hcn : c ∈ needle.data) (hch : c ∉ hay.data) :
    strContains hay needle = false := by
  by_contra h
  rw [Bool.not_eq_false] at h
  exact hch (strContains_char_mem hcn h)

theorem digitChar_isDigit (d : Nat) (hd : d < 10) :
    (Char.ofNat (48 + d)).isDigit = true := by
  interval_cases d <;> decide

theorem natDigits_digits (n : Nat) : ∀ c ∈ natDigits n, c.isDigit = true := by
  induction n using Nat.strong_induction_on with
  | _ n ih =>
    rw [natDigits]
    split
    · intro c hc
      simp only [List.mem_singleton] at hc
      subst hc
      exact digitChar_isDigit n (by assumption)
    · intro c hc
      rw [List.mem_append] at hc
      rcases hc with hc | hc
      · exact ih (n / 10) (Nat.div_lt_self (by omega) (by omega)) c hc
      · simp only [List.mem_singleton] at hc
        subst hc
        exact digitChar_isDigit (n % 10) (Nat.mod_lt n (by omega))

theorem httpErrMsg_chars (st : Nat) (c : Char)
    (hc : c ∈ ("HTTP error! status: " ++ natRepr st).data) :
    c ∈ "HTTP error! status: ".data ∨ c.isDigit = true := by
  rw [String.data_append] at hc
  rcases List.mem_append.mp hc with h | h
  · exact Or.inl h
  · exact Or.inr (natDigits_digits st c h)

theorem httpErrMsg_missing_char (st : Nat) (c : Char)
    (hc1 : c ∉ "HTTP error! status: ".data) (hc2 : c.isDigit = false) :
    c ∉ ("HTTP error! status: " ++ natRepr st).data := by
  intro hmem
  rcases httpErrMsg_chars st c hmem with h | h
  · exact hc1 h
  · rw [h] at hc2
    cases hc2

theorem shouldRetry_httpErr (st : Nat) :
    shouldRetryRequest (jsError ("HTTP error! status: " ++ natRepr st)) = false := by
  have h1 := strContains_false_of_missing_char
    ("HTTP error! status: " ++ natRepr st) "Connect Timeout" 'C' (by decide)
    (httpErrMsg_missing_char st 'C' (by decide) (by decide))
  have h2 := strContains_false_of_missing_char
    ("HTTP error! status: " ++ natRepr st) "fetch failed" 'f' (by decide)
    (httpErrMsg_missing_char st 'f' (by decide) (by decide))
  have h3 := strContains_false_of_missing_char
    ("HTTP error! status: " ++ natRepr st) "ECONNRESET" 'E' (by decide)
    (httpErrMsg_missing_char st 'E' (by decide) (by decide))
  have h4 := strContains_false_of_missing_char
    ("HTTP error! status: " ++ natRepr st) "ENOTFOUND" 'E' (by decide)
    (httpErrMsg_missing_char st 'E' (by decide) (by decide))
  have h5 := strContains_false_of_missing_char
    ("HTTP error! status: " ++ natRepr st) "request timeout" 'q' (by decide)
    (httpErrMsg_missing_char st 'q' (by decide) (by decide))
  simp [shouldRetryRequest, jsError, h1, h2, h3, h4, h5]

theorem isCert_httpErr (st : Nat) :
    isCertificateError (jsError ("HTTP error! status: " ++ natRepr st)) = false := by
  have h1 := strContains_false_of_missing_char
    ("HTTP error! status: " ++ natRepr st) "CERT_HAS_EXPIRED" 'C' (by decide)
    (httpErrMsg_missing_char st 'C' (by decide) (by decide))
  have h2 := strContains_false_of_missing_char
    ("HTTP error! status: " ++ natRepr st) "self signed certificate" 'f' (by decide)
    (httpErrMsg_missing_char st 'f' (by decide) (by decide))
  have h3 := strContains_false_of_missing_char
    ("HTTP error! status: " ++ natRepr st) "unable to verify the first certificate" 'f'
    (by decide) (httpErrMsg_missing_char st 'f' (by decide) (by decide))
  have hc1 : ((("" : String)) == "CERT_HAS_EXPIRED") = false := by decide
  have hc2 : ((("" : String)) == "DEPTH_ZERO_SELF_SIGNED_CERT") = false := by decide
  have hc3 : ((("" : String)) == "UNABLE_TO_VERIFY_LEAF_SIGNATURE") = false := by decide
  simp [isCertificateError, jsError, certMarker, h1, h2, h3, hc1, hc2, hc3]

theorem makeRequest_used_le (rc : Nat) (force : Bool) (sends : List SendOutcome)
    (hrc : rc ≤ 2) : (makeRequest false rc force sends).used ≤ 3 - rc := by
  induction sends generalizing rc force with
  | nil => simp [makeRequest]
  | cons s rest ih =>
    simp only [makeRequest]
    cases hat : (match s with
        | SendOutcome.err e => (Except.error e : Except JsErr ProntoBody)
        | SendOutcome.resp ok st body => processResponse ok st body) with
    | ok body =>
      simp only
      omega
    | error e =>
      simp only [Bool.false_and, Bool.false_eq_true, if_false]
      by_cases hretry : (decide (rc < 2) && shouldRetryRequest e) = true
      · have hlt : rc < 2 := by
          have h2 := hretry
          simp only [Bool.and_eq_true, decide_eq_true_eq] at h2
          exact h2.1
        rw [if_pos hretry]
        have := ih (rc + 1) force (by omega)
        simp only
        omega
      · rw [if_neg hretry]
        simp only
        omega

theorem makeRequest_nil_isOk (allowTls : Bool) (rc : Nat) (force : Bool) :
    isOkE (makeRequest allowTls rc force []).result = false := by
  simp [makeRequest, isOkE]

theorem makeRequest_single_ok (allowTls : Bool) (rc : Nat) (force : Bool)
    (st : Nat) (body : ProntoBody) (hs : (body.status == "0") = false) :
    makeRequest allowTls rc force [.resp true st body] = ⟨.ok body, [], [], 1⟩ := by
  simp [makeRequest, processResponse, hs]

theorem makeRequest_single_bad_isOk (allowTls : Bool) (rc : Nat) (force : Bool)
    (ok : Bool) (st : Nat) (body : ProntoBody)
    (h : (ok && !(body.status == "0")) = false) :
    isOkE (makeRequest allowTls rc force [.resp ok st body]).result = false := by
  simp only [makeRequest]
  cases hat : processResponse ok st body with
  | ok b =>
    exfalso
    unfold processResponse at hat
    cases ok with
    | false => simp at hat
    | true =>
      have hs : (body.status == "0") = true := by simpa using h
      simp [hs] at hat
  | error e =>
    simp only
    split_ifs <;> simp [makeRequest, isOkE]

theorem updatePaymentSession_fst_of_found (store : Store) (id : String)
    (u : UpdateInput) (now : String) (x : SessionRec)
    (h : getPaymentSession store id = some x) :
    (updatePaymentSession store id u now).1 =
      setSession store id (applyUpdate x u now) := by
  unfold updatePaymentSession
  rw [h]

theorem updatePaymentSession_fst_lookup (store : Store) (id : String)
    (u : UpdateInput) (now sid : String) (r : SessionRec)
    (h : getPaymentSession store sid = some r) :
    getPaymentSession (updatePaymentSession store id u now).1 sid = some r ∨
    getPaymentSession (updatePaymentSession store id u now).1 sid =
      some (applyUpdate r u now) := by
  unfold updatePaymentSession
  cases hg : getPaymentSession store id with
  | none => exact Or.inl h
  | some x =>
    by_cases hs : sid = id
    · subst hs
      rw [h] at hg
      injection hg with hx
      subst hx
      exact Or.inr (getPaymentSession_setSession_self store sid _ r h)
    · refine Or.inl ?_
      have hbe : (sid == id) = false := by simpa using hs
      rw [getPaymentSession_setSession_other store id sid _ hbe]
      exact h

theorem createShipmentForSession_error_store (env : Env) (store : Store)
    (sid : String) (sends : List SendOutcome) (now : String) (e : AppErr)
    (h : (createShipmentForSession env store sid sends now).result = .error e) :
    (createShipmentForSession env store sid sends now).store = store := by
  unfold createShipmentForSession at h ⊢
  cases hget : getPaymentSession store sid with
  | none => simp [hget]
  | some session =>
    cases hparse : parseShipmentInput session with
    | error z => simp [hget, hparse]
    | ok input =>
      cases hc : (createProntoShipment env input sends).result with
      | error e2 => simp [hget, hparse, hc]
      | ok shipment =>
        exfalso
        simp only [hget, hparse, hc, updatePaymentSession] at h
        simp at h

theorem updatePaymentSession_of_found (store : Store) (id : String)
    (u : UpdateInput) (now : String) (x : SessionRec)
    (h : getPaymentSession store id = some x) :
    updatePaymentSession store id u now =
      (setSession store id (applyUpdate x u now), .ok (applyUpdate x u now)) := by
  unfold updatePaymentSession
  rw [h]

theorem createShipmentForSession_store_shape (env : Env) (store : Store)
    (sid : String) (sends : List SendOutcome) (now : String)
    (session : SessionRec) (hget : getPaymentSession store sid = some session) :
    (createShipmentForSession env store sid sends now).store = store ∨
    ∃ u : UpdateInput, u.status = some .COMPLETED ∧ u.metadata = none ∧
      (createShipmentForSession env store sid sends now).store =
        setSession store sid (applyUpdate session u now) := by
  unfold createShipmentForSession
  cases hparse : parseShipmentInput session with
  | error z => exact Or.inl (by simp [hget, hparse])
  | ok input =>
    cases hc : (createProntoShipment env input sends).result with
    | error e2 => exact Or.inl (by simp [hget, hparse, hc])
    | ok shipment =>
      refine Or.inr ⟨shipmentSuccessUpdate shipment, rfl, rfl, ?_⟩
      simp only [hget, hparse, hc, updatePaymentSession]

theorem createShipmentForSession_lookup (env : Env) (store : Store)
    (id : String) (sends : List SendOutcome) (now sid : String)
    (r : SessionRec) (h : getPaymentSession store sid = some r) :
    getPaymentSession (createShipmentForSession env store id sends now).store
      sid = some r ∨
    ∃ u : UpdateInput, u.status = some .COMPLETED ∧
      getPaymentSession (createShipmentForSession env store id sends now).store
        sid = some (applyUpdate r u now) := by
  cases hget : getPaymentSession store id with
  | none =>
    refine Or.inl ?_
    unfold createShipmentForSession
    rw [hget]
    exact h
  | some session =>
    rcases createShipmentForSession_store_shape env store id sends now session
        hget with hsh | ⟨u, hu, _, hsh⟩
    · exact Or.inl (by rw [hsh]; exact h)
    · by_cases hs : sid = id
      · subst hs
        rw [h] at hget
        injection hget with hx
        subst hx
        exact Or.inr ⟨u, hu, by
          rw [hsh]
          exact getPaymentSession_setSession_self store sid _ r h⟩
      · refine Or.inl ?_
        rw [hsh]
        have hbe : (sid == id) = false := by simpa using hs
        rw [getPaymentSession_setSession_other store id sid _ hbe]
        exact h

theorem createSessionPOST_lookup (env : Env) (input : CreateSessionInput)
    (uuid : String) (store : Store) (sends : List SendOutcome)
    (gw : GatewayOutcome) (now sid : String) (r : SessionRec)
    (h : getPaymentSession store sid = some r) :
    getPaymentSession (createSessionPOST env input uuid store sends gw now).store
      sid = some r := by
  simp only [createSessionPOST]
  split_ifs
  · exact h
  · exact h
  · cases hq : (quoteStep env sends).result with
    | error e => simp only [hq]; exact h
    | ok p =>
      obtain ⟨qb, qv⟩ := p
      simp only [hq]
      cases gw with
      | thrown e2 => exact h
      | resp ok result sessionIdField errorExplanation errorCause raw =>
        simp only
        split_ifs
        · exact h
        · exact h
        · cases hdup : getPaymentSession store (sessionIdField.getD "") with
          | some x => simp only [createPaymentSession, hdup]; exact h
          | none =>
            simp only [createPaymentSession, hdup]
            exact getPaymentSession_append_of_found store sid r _ h

theorem applyUpdate_status (r : SessionRec) (u : UpdateInput) (now : String) :
    (applyUpdate r u now).status = u.status.getD r.status := rfl

theorem processWebhook_lookup (env : Env) (hdr : Option String)
    (body : Option JObj) (store : Store) (sends : List SendOutcome)
    (now sid : String) (r : SessionRec)
    (h : getPaymentSession store sid = some r) :
    ∃ r2, getPaymentSession (processWebhook env hdr body store sends now).store
      sid = some r2 ∧
      (r2.status = r.status ∨ r2.status = .COMPLETED ∨ r2.status = .FAILED) := by
  cases hsec : secretValid hdr env with
  | false =>
    refine ⟨r, ?_, Or.inl rfl⟩
    simpa [processWebhook, hsec] using h
  | true =>
    simp only [processWebhook, hsec, Bool.not_true, Bool.false_eq_true, if_false]
    cases hex : extractSessionId (body.getD .nil) with
    | none => exact ⟨r, h, Or.inl rfl⟩
    | some id =>
      simp only
      cases hg : getPaymentSession store id with
      | none => simp only [hg]; exact ⟨r, h, Or.inl rfl⟩
      | some session =>
        have hmid : ∀ su : Bool, ∃ r1,
            getPaymentSession (setSession store id (applyUpdate session
              (webhookTransition su (webhookMetadata session (body.getD .nil) now))
              now)) sid = some r1 ∧
            (r1.status = r.status ∨ r1.status = .COMPLETED ∨
              r1.status = .FAILED) := by
          intro su
          by_cases hs : sid = id
          · subst hs
            rw [h] at hg
            injection hg with hx
            subst hx
            refine ⟨_, getPaymentSession_setSession_self store sid _ r h, ?_⟩
            cases su <;> simp [applyUpdate_status, webhookTransition]
          · have hbe : (sid == id) = false := by simpa using hs
            rw [getPaymentSession_setSession_other store id sid _ hbe]
            exact ⟨r, h, Or.inl rfl⟩
        cases hsucc : isPaymentSuccessful (body.getD .nil) with
        | false =>
          simp only [hg, hsucc, updatePaymentSession_of_found store id
            (webhookTransition false (webhookMetadata session (body.getD .nil) now))
            now session hg, Bool.not_false, if_true]
          exact hmid false
        | true =>
          simp only [hg, hsucc, updatePaymentSession_of_found store id
            (webhookTransition true (webhookMetadata session (body.getD .nil) now))
            now session hg, Bool.not_true, Bool.false_eq_true, if_false]
          obtain ⟨r1, hr1, hst1⟩ := hmid true
          cases hs : (createShipmentForSession env (setSession store id
              (applyUpdate session (webhookTransition true
                (webhookMetadata session (body.getD .nil) now)) now))
              id sends now).result with
          | ok out =>
            simp only [hs]
            rcases createShipmentForSession_lookup env _ id sends now sid r1
                hr1 with h2 | ⟨u, hu, h2⟩
            · exact ⟨r1, h2, hst1⟩
            · refine ⟨_, h2, Or.inr (Or.inl ?_)⟩
              simp [applyUpdate_status, hu]
          | error eApp =>
            simp only [hs]
            rcases createShipmentForSession_lookup env _ id sends now sid r1
                hr1 with h2 | ⟨u, hu, h2⟩
            · rcases updatePaymentSession_fst_lookup _ id
                  (webhookShipmentFailure (webhookMetadata session
                    (body.getD .nil) now) eApp) now sid r1 h2 with h3 | h3
              · exact ⟨r1, h3, hst1⟩
              · refine ⟨_, h3, ?_⟩
                simpa [applyUpdate_status, webhookShipmentFailure] using hst1
            · rcases updatePaymentSession_fst_lookup _ id
                  (webhookShipmentFailure (webhookMetadata session
                    (body.getD .nil) now) eApp) now sid _ h2 with h3 | h3
              · refine ⟨_, h3, Or.inr (Or.inl ?_)⟩
                simp [applyUpdate_status, hu]
              · refine ⟨_, h3, Or.inr (Or.inl ?_)⟩
                simp [applyUpdate_status, webhookShipmentFailure, hu]

theorem step_preserves (env : Env) (store : Store) (op : Op) (sid : String)
    (r : SessionRec) (h : getPaymentSession store sid = some r) :
    ∃ r2, getPaymentSession (step env store op) sid = some r2 ∧
      (r2.status = r.status ∨ r2.status = .COMPLETED ∨ r2.status = .FAILED) := by
  cases op with
  | webhook hdr body sends now =>
    exact processWebhook_lookup env hdr body store sends now sid r h
  | createSession input uuid sends gw now =>
    exact ⟨r, createSessionPOST_lookup env input uuid store sends gw now sid r h,
      Or.inl rfl⟩
  | orchestrate id sends now =>
    rcases createShipmentForSession_lookup env store id sends now sid r h with
      h2 | ⟨u, hu, h2⟩
    · exact ⟨r, h2, Or.inl rfl⟩
    · exact ⟨_, h2, Or.inr (Or.inl (by simp [applyUpdate_status, hu]))⟩

theorem runOps_no_pending (env : Env) (ops : List Op) (store : Store)
    (sid : String) (r : SessionRec) (h : getPaymentSession store sid = some r)
    (hnp : r.status ≠ .PENDING) :
    ∃ r2, getPaymentSession (runOps env store ops) sid = some r2 ∧
      r2.status ≠ .PENDING := by
  induction ops generalizing store r with
  | nil => exact ⟨r, h, hnp⟩
  | cons op rest ih =>
    rcases step_preserves env store op sid r h with ⟨r2, h2, hst⟩
    have hnp2 : r2.status ≠ .PENDING := by
      rcases hst with h' | h' | h' <;> rw [h']
      · exact hnp
      · simp
      · simp
    exact ih _ _ h2 hnp2

theorem webhookMetadata_at (session : SessionRec) (body : JObj) (now : String) :
    jlookup (webhookMetadata session body now) "lastWebhookAt" =
      some (.str now) := by
  unfold webhookMetadata
  rw [jlookup_jsSet_other _ _ _ _ (by decide)]
  exact jlookup_jsSet_same _ _ _

theorem webhookMetadata_payload (session : SessionRec) (body : JObj)
    (now : String) :
    jlookup (webhookMetadata session body now) "lastWebhookPayload" =
      some (.obj body) :=
  jlookup_jsSet_same _ _ _

theorem processWebhook_success_store (env : Env) (hdr : Option String)
    (body : JObj) (store : Store) (sends : List SendOutcome) (now sid : String)
    (session : SessionRec)
    (hsec : secretValid hdr env = true)
    (hid : extractSessionId body = some sid)
    (hget : getPaymentSession store sid = some session)
    (hsucc : isPaymentSuccessful body = true) :
    ∃ r2, getPaymentSession
        (processWebhook env hdr (some body) store sends now).store sid = some r2 ∧
      r2.status = .COMPLETED ∧
      jlookup (r2.metadata.getD .nil) "lastWebhookAt" = some (.str now) ∧
      jlookup (r2.metadata.getD .nil) "lastWebhookPayload" = some (.obj body) := by
  have hupd := updatePaymentSession_of_found store sid
    (webhookTransition true (webhookMetadata session body now)) now session hget
  have hr1 := getPaymentSession_setSession_self store sid
    (applyUpdate session (webhookTransition true (webhookMetadata session body now))
      now) session hget
  have hst1 : (applyUpdate session (webhookTransition true
      (webhookMetadata session body now)) now).status = .COMPLETED := by
    simp [applyUpdate_status, webhookTransition]
  have hm1 : (applyUpdate session (webhookTransition true
      (webhookMetadata session body now)) now).metadata =
      some (webhookMetadata session body now) := by
    simp [applyUpdate, webhookTransition]
  simp only [processWebhook, hsec, Bool.not_true, Bool.false_eq_true, if_false,
    Option.getD_some, hid, hget, hsucc, hupd]
  cases hs : (createShipmentForSession env (setSession store sid
      (applyUpdate session (webhookTransition true (webhookMetadata session body now))
        now)) sid sends now).result with
  | ok out =>
    simp only [hs]
    rcases createShipmentForSession_store_shape env _ sid sends now _ hr1 with
      hsh | ⟨u, hu, hum, hsh⟩
    · refine ⟨applyUpdate session (webhookTransition true
          (webhookMetadata session body now)) now, ?_, hst1, ?_, ?_⟩
      · rw [hsh]
        exact hr1
      · rw [hm1]
        exact webhookMetadata_at session body now
      · rw [hm1]
        exact webhookMetadata_payload session body now
    · refine ⟨applyUpdate (applyUpdate session (webhookTransition true
          (webhookMetadata session body now)) now) u now, ?_, ?_, ?_, ?_⟩
      · rw [hsh]
        exact getPaymentSession_setSession_self _ sid _ _ hr1
      · simp [applyUpdate_status, hu]
      · simp only [applyUpdate, hum, Option.getD_none, hm1]
        exact webhookMetadata_at session body now
      · simp only [applyUpdate, hum, Option.getD_none, hm1]
        exact webhookMetadata_payload session body now
  | error eApp =>
    have hshipstore := createShipmentForSession_error_store env _ sid sends now
      _ hs
    have hfail := updatePaymentSession_of_found
      (createShipmentForSession env (setSession store sid (applyUpdate session
        (webhookTransition true (webhookMetadata session body now)) now))
        sid sends now).store sid
      (webhookShipmentFailure (webhookMetadata session body now) eApp) now
      (applyUpdate session (webhookTransition true (webhookMetadata session body now))
        now) (by rw [hshipstore]; exact hr1)
    simp only [hs, hfail]
    refine ⟨applyUpdate (applyUpdate session (webhookTransition true
        (webhookMetadata session body now)) now)
        (webhookShipmentFailure (webhookMetadata session body now) eApp) now,
      getPaymentSession_setSession_self _ sid _ _
        (by rw [hshipstore]; exact hr1), ?_, ?_, ?_⟩
    · simp [applyUpdate_status, webhookShipmentFailure, webhookTransition]
    · simp only [applyUpdate, webhookShipmentFailure, Option.getD_some]
      rw [jlookup_jsSet_other _ _ _ _ (by decide)]
      exact webhookMetadata_at session body now
    · simp only [applyUpdate, webhookShipmentFailure, Option.getD_some]
      rw [jlookup_jsSet_other _ _ _ _ (by decide)]
      exact webhookMetadata_payload session body now

/-! ## Theorems for the claims -/

/-- C7: the area-code resolver is total and deterministic: it trims its
input, tries an exact case-sensitive match against the static table —
every table key resolves to its documented zone — then case-insensitive
substring matches against representative city names in the order metro,
suburb, outstation (witnessed by inputs containing several city names),
and on a total miss returns zone 3, as for the unrecognized string
Nowhereville. -/
theorem c7_zone_resolution_determinism :
    (PRONTO_AREA_CODES.all fun p => getAreaCodeForLocation p.1 == p.2) = true ∧
    getAreaCodeForLocation "Nowhereville" = "3" ∧
    getAreaCodeForLocation " Kandy " = "3" ∧
    getAreaCodeForLocation "Negombo Road near Kandy" = "2" ∧
    getAreaCodeForLocation "Greater Colombo Kandy Road" = "1" :=
  ⟨by decide, by decide, by decide, by decide, by decide⟩

/-- C9: a webhook request whose `x-notification-secret` header is absent,
empty, or different from the configured secret is answered 401
UNAUTHORIZED, with the session table unchanged, an empty store-operation
trace (no session read or write), and no carrier send consumed —
regardless of the body. -/
theorem c9_unauthorized_short_circuit (env : Env) (secretHeader : Option String)
    (body : Option JObj) (store : Store) (sends : List SendOutcome)
    (now : String) (h : secretValid secretHeader env = false) :
    processWebhook env secretHeader body store sends now =
      ⟨⟨401, false, some "UNAUTHORIZED", none⟩, store, [], sends⟩ := by
  simp [processWebhook, h]

theorem c9_unauthorized_short_circuit_witness :
    secretValid (some "wrong") testEnv = false ∧
    processWebhook testEnv (some "wrong") (some successPayload) store0
        goodShipmentSends "T1" =
      ⟨⟨401, false, some "UNAUTHORIZED", none⟩, store0, [], goodShipmentSends⟩ :=
  ⟨by decide,
   c9_unauthorized_short_circuit testEnv (some "wrong") (some successPayload)
     store0 goodShipmentSends "T1" (by decide)⟩

/-- C10: for every input string the resolver returns one of the five zone
codes, and whenever the trimmed input misses the static table the result
is one of 1, 2, 3 — zones 4 and 5 are reachable only through an exact
table match. -/
theorem c10_zone_code_range (s : String) :
    getAreaCodeForLocation s ∈ ["1", "2", "3", "4", "5"] ∧
    (areaCodeLookup (jsTrim s) = none →
      getAreaCodeForLocation s ∈ ["1", "2", "3"]) := by
  have hv : ∀ p ∈ PRONTO_AREA_CODES, p.2 ∈ ["1", "2", "3", "4", "5"] := by decide
  constructor
  · unfold getAreaCodeForLocation
    cases h : areaCodeLookup (jsTrim s) with
    | some code =>
      obtain ⟨p, hfind, hp2⟩ := Option.map_eq_some'.mp h
      have hmem := List.mem_of_find?_eq_some hfind
      subst hp2
      simp only [h]
      simpa using hv p hmem
    | none =>
      simp only [h]
      split_ifs <;> simp
  · intro h
    unfold getAreaCodeForLocation
    simp only [h]
    split_ifs <;> simp

/-- C8 (counterexample to the claim as stated): a non-transport failure —
an HTTP-OK response whose body carries the sentinel failure status `0` —
IS retried when the carrier's `status_ref` text happens to contain a
transport-failure marker such as `ECONNRESET`: the thrown
`Pronto API error: ...` message is string-matched by
`shouldRetryRequest`, one 2000ms delay elapses, and the retried call
succeeds. -/
theorem c8_counterexample :
    makeRequest false 0 false
        [.resp true 200 { status := "0", status_ref := some "ECONNRESET" },
         .resp true 200 { status := "1" }] =
      ⟨.ok { status := "1" }, [2000], [], 2⟩ := rfl

/-- C8 (amended): transport-looking failures (as classified by
`shouldRetryRequest` over the error message) are retried up to 2 further
times with delays 2000ms then 4000ms, so a call failing on attempts 1 and
2 and succeeding on attempt 3 returns the success with exactly those two
delays; a not-OK HTTP status failure is never retried (its message
matches no transport marker, whatever the numeric status); a body
failure-status error is not retried provided its `status_ref` text
contains no transport marker; and without the TLS fallback at most 3
physical sends occur. -/
theorem c8_retry_policy (allowTls : Bool) (e1 e2 : JsErr) (st st2 : Nat)
    (body body0 b2 : ProntoBody) (rest sends : List SendOutcome)
    (h1 : shouldRetryRequest e1 = true) (hc1 : isCertificateError e1 = false)
    (h2 : shouldRetryRequest e2 = true) (hc2 : isCertificateError e2 = false)
    (hb : (body.status == "0") = false)
    (hb0 : body0.status = "0")
    (hbr : shouldRetryRequest (jsError ("Pronto API error: " ++
      (body0.status_ref.getD "Unknown error"))) = false)
    (hbc : isCertificateError (jsError ("Pronto API error: " ++
      (body0.status_ref.getD "Unknown error"))) = false) :
    makeRequest allowTls 0 false
        (.err e1 :: .err e2 :: .resp true st body :: rest) =
      ⟨.ok body, [2000, 4000], rest, 3⟩ ∧
    makeRequest allowTls 0 false (.resp false st2 b2 :: rest) =
      ⟨.error (jsError ("HTTP error! status: " ++ natRepr st2)), [], rest, 1⟩ ∧
    makeRequest allowTls 0 false (.resp true st body0 :: rest) =
      ⟨.error (jsError ("Pronto API error: " ++
        (body0.status_ref.getD "Unknown error"))), [], rest, 1⟩ ∧
    (makeRequest false 0 false sends).used ≤ 3 := by
  refine ⟨?_, ?_, ?_, ?_⟩
  · simp [makeRequest, processResponse, h1, h2, hc1, hc2, hb]
  · simp [makeRequest, processResponse, shouldRetry_httpErr st2, isCert_httpErr st2]
  · simp [makeRequest, processResponse, hb0, hbr, hbc]
  · simpa using makeRequest_used_le 0 false sends (by omega)

theorem c8_retry_policy_witness :
    makeRequest false 0 false
        [.err (jsError "fetch failed"), .err (jsError "fetch failed"),
         .resp true 200 { status := "1" }] =
      ⟨.ok { status := "1" }, [2000, 4000], [], 3⟩ ∧
    makeRequest false 0 false [.resp false 503 ({ status := "1" } : ProntoBody)] =
      ⟨.error (jsError ("HTTP error! status: " ++ natRepr 503)), [], [], 1⟩ ∧
    makeRequest false 0 false
        [.resp true 200 ({ status := "0", status_ref := some "card declined" } : ProntoBody)] =
      ⟨.error (jsError ("Pronto API error: " ++
        ((some "card declined").getD "Unknown error"))), [], [], 1⟩ ∧
    (makeRequest false 0 false [.err (jsError "fetch failed")]).used ≤ 3 :=
  c8_retry_policy false (jsError "fetch failed") (jsError "fetch failed") 200 503
    { status := "1" } { status := "0", status_ref := some "card declined" }
    { status := "1" } [] [.err (jsError "fetch failed")]
    (by decide) (by decide) (by decide) (by decide) (by decide) (by rfl)
    (by decide) (by decide)

/-- C4 (counterexample to the claim as stated): in the shipment path the
cost-quote call with a non-numeric cost field (`live_amount.amount` =
`abc`, which parses to NaN) does NOT fail: `createProntoShipment`
succeeds and records cost NaN. -/
theorem c4_counterexample :
    isOkE (createProntoShipment testEnv sampleShipmentInput nanCostSends).result = true ∧
    shipCost (createProntoShipment testEnv sampleShipmentInput nanCostSends) =
      some JsNum.nan ∧
    jsIsFinite JsNum.nan = false :=
  ⟨rfl, rfl, rfl⟩

/-- C4 (amended): the carrier cost-quote call itself fails iff the HTTP
response is not OK or the body carries the sentinel failure status 0 — a
non-numeric cost field does not fail the call.  The non-numeric-cost
check is enforced only by the session-creation quote step (`quoteStep`),
which fails iff the call fails or the parsed `live_amount.amount` is
non-finite. -/
theorem c4_quote_failure_conditions (env : Env) (ok : Bool) (st : Nat)
    (body : ProntoBody) :
    isOkE (callApi env [.resp ok st body]).result = (ok && !(body.status == "0")) ∧
    isOkE (quoteStep env [.resp ok st body]).result =
      (ok && !(body.status == "0") &&
        jsIsFinite (jsParseFloat ((match body.live_amount with
          | some (some s) => some s
          | _ => none).getD ""))) := by
  have hmain : ∀ a : Bool,
      isOkE (makeRequest a 0 false [.resp ok st body]).result =
        (ok && !(body.status == "0")) := by
    intro a
    cases hc : (ok && !(body.status == "0")) with
    | true =>
      obtain ⟨hok, hs⟩ : ok = true ∧ (!(body.status == "0")) = true :=
        Bool.and_eq_true _ _ ▸ hc
      subst hok
      rw [makeRequest_single_ok a 0 false st body (by simpa using hs)]
      rfl
    | false => exact makeRequest_single_bad_isOk a 0 false ok st body hc
  refine ⟨hmain (shouldAllowInsecureTls env), ?_⟩
  cases hc : (ok && !(body.status == "0")) with
  | true =>
    obtain ⟨hok, hs⟩ : ok = true ∧ (!(body.status == "0")) = true :=
      Bool.and_eq_true _ _ ▸ hc
    subst hok
    simp only [quoteStep, callApi,
      makeRequest_single_ok (shouldAllowInsecureTls env) 0 false st body
        (by simpa using hs)]
    cases hp : jsParseFloat ((match body.live_amount with
        | some (some s) => some s
        | _ => none).getD "") with
    | num q => simp [isOkE, jsIsFinite, hp]
    | nan => simp [isOkE, jsIsFinite, hp]
    | inf p => simp [isOkE, jsIsFinite, hp]
  | false =>
    have hko := hmain (shouldAllowInsecureTls env)
    rw [hc] at hko
    simp only [quoteStep, callApi] at hko ⊢
    cases hres : (makeRequest (shouldAllowInsecureTls env) 0 false
        [.resp ok st body]).result with
    | ok b =>
      rw [hres] at hko
      simp [isOkE] at hko
    | error e =>
      simp only [hres]
      simp [isOkE]

/-- C6: when the delivery-charge quote step fails (carrier call failed or
non-finite parsed charge), session creation aborts entirely: nothing is
persisted (the table is unchanged and no created row is reported), the
payment gateway is never called, and the response is the 500 server
error. -/
theorem c6_quote_failure_aborts_creation (env : Env) (input : CreateSessionInput)
    (uuid : String) (store : Store) (sends : List SendOutcome)
    (gw : GatewayOutcome) (now : String) (e : JsErr)
    (hq : (quoteStep env sends).result = .error e) :
    (createSessionPOST env input uuid store sends gw now).created = none ∧
    (createSessionPOST env input uuid store sends gw now).gatewayCalled = false ∧
    (createSessionPOST env input uuid store sends gw now).store = store ∧
    (createSessionPOST env input uuid store sends gw now).response =
      ⟨500, false, some "SERVER_ERROR", none⟩ := by
  refine ⟨?_, ?_, ?_, ?_⟩ <;>
    · simp only [createSessionPOST, hq]
      split_ifs <;> simp [handleError]

theorem c6_quote_failure_aborts_creation_witness :
    (quoteStep testEnv [.resp true 200 { status := "0" }]).result =
      .error (jsError "Unable to calculate delivery charges for this location. Please verify the destination and try again.") ∧
    (createSessionPOST testEnv sampleCreateInput "UUID1" []
        [.resp true 200 { status := "0" }] gatewayOkResp "T0").created = none ∧
    (createSessionPOST testEnv sampleCreateInput "UUID1" []
        [.resp true 200 { status := "0" }] gatewayOkResp "T0").gatewayCalled = false ∧
    (createSessionPOST testEnv sampleCreateInput "UUID1" []
        [.resp true 200 { status := "0" }] gatewayOkResp "T0").store = [] ∧
    (createSessionPOST testEnv sampleCreateInput "UUID1" []
        [.resp true 200 { status := "0" }] gatewayOkResp "T0").response =
      ⟨500, false, some "SERVER_ERROR", none⟩ :=
  ⟨rfl,
   (c6_quote_failure_aborts_creation testEnv sampleCreateInput "UUID1" []
     [.resp true 200 { status := "0" }] gatewayOkResp "T0" _ rfl).1,
   (c6_quote_failure_aborts_creation testEnv sampleCreateInput "UUID1" []
     [.resp true 200 { status := "0" }] gatewayOkResp "T0" _ rfl).2.1,
   (c6_quote_failure_aborts_creation testEnv sampleCreateInput "UUID1" []
     [.resp true 200 { status := "0" }] gatewayOkResp "T0" _ rfl).2.2.1,
   (c6_quote_failure_aborts_creation testEnv sampleCreateInput "UUID1" []
     [.resp true 200 { status := "0" }] gatewayOkResp "T0" _ rfl).2.2.2⟩

/-- C5: every session-creation run that reaches persistence stores
`amount = round2(itemAmount + deliveryCharge)` where `deliveryCharge` is
the parsed carrier quote rounded to two decimals; the same delivery
charge is persisted as `prontoCost` and as
`metadata.pricing.deliveryCharge`, and `metadata.pricing.itemAmount` is
the item amount. -/
theorem c5_pricing_invariant (env : Env) (input : CreateSessionInput)
    (uuid : String) (store : Store) (sends : List SendOutcome)
    (gw : GatewayOutcome) (now : String) (qb : ProntoBody) (qv : ℚ)
    (hq : (quoteStep env sends).result = .ok (qb, qv))
    (hcr : ((createSessionPOST env input uuid store sends gw now).created).isSome
      = true) :
    createdAmount (createSessionPOST env input uuid store sends gw now) =
      some (jsToFixed2 (input.amount + jsToFixed2 qv)) ∧
    createdProntoCost (createSessionPOST env input uuid store sends gw now) =
      some (some (.num (jsToFixed2 qv))) ∧
    createdPricingField (createSessionPOST env input uuid store sends gw now)
      "deliveryCharge" = some (some (.num (.num (jsToFixed2 qv)))) ∧
    createdPricingField (createSessionPOST env input uuid store sends gw now)
      "itemAmount" = some (some (.num (.num input.amount))) := by
  have key : ∀ r, (createSessionPOST env input uuid store sends gw now).created
      = some r →
      r.amount = jsToFixed2 (input.amount + jsToFixed2 qv) ∧
      r.prontoCost = some (.num (jsToFixed2 qv)) ∧
      metaPricingField r "deliveryCharge" = some (.num (.num (jsToFixed2 qv))) ∧
      metaPricingField r "itemAmount" = some (.num (.num input.amount)) := by
    intro r hr
    simp only [createSessionPOST, hq] at hr
    split_ifs at hr
    cases gw with
    | thrown e => simp at hr
    | resp ok result sessionIdField errorExplanation errorCause raw =>
      simp only [] at hr
      split_ifs at hr
      cases hdup : getPaymentSession store (sessionIdField.getD "") with
      | some x => simp [createPaymentSession, hdup] at hr
      | none =>
        simp only [createPaymentSession, hdup, Option.some.injEq] at hr
        subst hr
        refine ⟨rfl, rfl, ?_, ?_⟩ <;>
          simp [metaPricingField, jlookup, JObj.ofList]
  obtain ⟨r, hr⟩ := Option.isSome_iff_exists.mp hcr
  obtain ⟨h1, h2, h3, h4⟩ := key r hr
  exact ⟨by simp [createdAmount, hr, h1], by simp [createdProntoCost, hr, h2],
    by simp [createdPricingField, hr, h3], by simp [createdPricingField, hr, h4]⟩

theorem c5_pricing_invariant_witness :
    (quoteStep testEnv [costOkSend]).result =
      .ok ({ status := "1", live_amount := some (some "450.00") }, 450) ∧
    ((createSessionPOST testEnv sampleCreateInput "UUID1" [] [costOkSend]
        gatewayOkResp "T0").created).isSome = true ∧
    jsToFixed2 ((1000 : ℚ) + jsToFixed2 450) = 1450 ∧
    createdAmount (createSessionPOST testEnv sampleCreateInput "UUID1" []
        [costOkSend] gatewayOkResp "T0") =
      some (jsToFixed2 ((sampleCreateInput).amount + jsToFixed2 450)) ∧
    createdProntoCost (createSessionPOST testEnv sampleCreateInput "UUID1" []
        [costOkSend] gatewayOkResp "T0") = some (some (.num (jsToFixed2 450))) ∧
    createdPricingField (createSessionPOST testEnv sampleCreateInput "UUID1" []
        [costOkSend] gatewayOkResp "T0") "deliveryCharge" =
      some (some (.num (.num (jsToFixed2 450)))) ∧
    createdPricingField (createSessionPOST testEnv sampleCreateInput "UUID1" []
        [costOkSend] gatewayOkResp "T0") "itemAmount" =
      some (some (.num (.num (sampleCreateInput).amount))) := by
  have h := c5_pricing_invariant testEnv sampleCreateInput "UUID1" [] [costOkSend]
    gatewayOkResp "T0" { status := "1", live_amount := some (some "450.00") } 450
    (by with_unfolding_all rfl) (by with_unfolding_all rfl)
  exact ⟨by with_unfolding_all rfl, by with_unfolding_all rfl,
    by with_unfolding_all rfl, h.1, h.2.1, h.2.2.1, h.2.2.2⟩

/-- C1: when an authorized webhook reports payment success for an
existing session and the subsequent shipment orchestration fails with a
plain (non-validation) error, the response is the 500-class server
error, the stored session keeps `status = COMPLETED` (written by the
transition step), carries `prontoStatus = FAILED` and a
`lastShipmentError` note in its merged metadata, and the trace shows the
COMPLETED status write strictly before the shipment operations, followed
by the status-free failure update. -/
theorem c1_shipment_failure_persistence (env : Env) (hdr : Option String)
    (body : JObj) (store : Store) (sends : List SendOutcome) (now sid : String)
    (session : SessionRec) (e : JsErr) (store1 : Store)
    (hsec : secretValid hdr env = true)
    (hid : extractSessionId body = some sid)
    (hget : getPaymentSession store sid = some session)
    (hsucc : isPaymentSuccessful body = true)
    (hstore1 : store1 = setSession store sid (applyUpdate session
      (webhookTransition true (webhookMetadata session body now)) now))
    (hship : (createShipmentForSession env store1 sid sends now).result =
      .error (.js e)) :
    (processWebhook env hdr (some body) store sends now).response =
      ⟨500, false, some "SERVER_ERROR", none⟩ ∧
    sessionStatus (processWebhook env hdr (some body) store sends now).store
      sid = some .COMPLETED ∧
    sessionProntoStatus (processWebhook env hdr (some body) store sends now).store
      sid = some (some "FAILED") ∧
    sessionMetaField (processWebhook env hdr (some body) store sends now).store
      sid "lastShipmentError" = some (.str e.message) ∧
    (processWebhook env hdr (some body) store sends now).trace =
      .getOp sid :: .updStatus sid (some .COMPLETED) ::
        ((createShipmentForSession env store1 sid sends now).trace ++
          [.updStatus sid none]) := by
  subst hstore1
  have hupd := updatePaymentSession_of_found store sid
    (webhookTransition true (webhookMetadata session body now)) now session hget
  have hr1 := getPaymentSession_setSession_self store sid
    (applyUpdate session (webhookTransition true (webhookMetadata session body now))
      now) session hget
  have hshipstore := createShipmentForSession_error_store env
    (setSession store sid (applyUpdate session
      (webhookTransition true (webhookMetadata session body now)) now))
    sid sends now _ hship
  have hfail := updatePaymentSession_of_found
    (createShipmentForSession env (setSession store sid (applyUpdate session
      (webhookTransition true (webhookMetadata session body now)) now))
      sid sends now).store sid
    (webhookShipmentFailure (webhookMetadata session body now) (.js e)) now
    (applyUpdate session (webhookTransition true (webhookMetadata session body now))
      now) (by rw [hshipstore]; exact hr1)
  have hrun : processWebhook env hdr (some body) store sends now =
      ⟨handleError (.js e),
       setSession (createShipmentForSession env (setSession store sid
           (applyUpdate session (webhookTransition true
             (webhookMetadata session body now)) now)) sid sends now).store sid
         (applyUpdate (applyUpdate session (webhookTransition true
             (webhookMetadata session body now)) now)
           (webhookShipmentFailure (webhookMetadata session body now) (.js e)) now),
       .getOp sid :: .updStatus sid (some .COMPLETED) ::
         ((createShipmentForSession env (setSession store sid
             (applyUpdate session (webhookTransition true
               (webhookMetadata session body now)) now)) sid sends now).trace ++
           [.updStatus sid none]),
       (createShipmentForSession env (setSession store sid
           (applyUpdate session (webhookTransition true
             (webhookMetadata session body now)) now)) sid sends now).rest⟩ := by
    simp only [processWebhook, hsec, Bool.not_true, Bool.false_eq_true, if_false,
      Option.getD_some, hid, hget, hsucc, hupd, hship, hfail]
  have hlast : getPaymentSession (setSession (createShipmentForSession env
      (setSession store sid (applyUpdate session (webhookTransition true
        (webhookMetadata session body now)) now)) sid sends now).store sid
      (applyUpdate (applyUpdate session (webhookTransition true
          (webhookMetadata session body now)) now)
        (webhookShipmentFailure (webhookMetadata session body now) (.js e)) now))
      sid = some (applyUpdate (applyUpdate session (webhookTransition true
          (webhookMetadata session body now)) now)
        (webhookShipmentFailure (webhookMetadata session body now) (.js e)) now) := by
    apply getPaymentSession_setSession_self
    rw [hshipstore]
    exact hr1
  refine ⟨?_, ?_, ?_, ?_, ?_⟩
  · rw [hrun]
    rfl
  · rw [hrun]
    simp only [sessionStatus, hlast, Option.map_some']
    simp [applyUpdate, webhookShipmentFailure, webhookTransition]
  · rw [hrun]
    simp only [sessionProntoStatus, hlast, Option.map_some']
    simp [applyUpdate, webhookShipmentFailure, webhookTransition]
  · rw [hrun]
    simp only [sessionMetaField, hlast]
    simp [applyUpdate, webhookShipmentFailure, webhookTransition,
      AppErr.message, jlookup_jsSet_same]
  · rw [hrun]

theorem c1_shipment_failure_persistence_witness :
    secretValid (some "whsec-1") testEnv = true ∧
    extractSessionId successPayload = some "S1" ∧
    isPaymentSuccessful successPayload = true ∧
    (processWebhook testEnv (some "whsec-1") (some successPayload) store0
        rejectShipmentSends "T1").response = ⟨500, false, some "SERVER_ERROR", none⟩ ∧
    sessionStatus (processWebhook testEnv (some "whsec-1") (some successPayload)
        store0 rejectShipmentSends "T1").store "S1" = some .COMPLETED ∧
    sessionProntoStatus (processWebhook testEnv (some "whsec-1")
        (some successPayload) store0 rejectShipmentSends "T1").store "S1" =
      some (some "FAILED") ∧
    sessionMetaField (processWebhook testEnv (some "whsec-1")
        (some successPayload) store0 rejectShipmentSends "T1").store "S1"
      "lastShipmentError" =
      some (.str (jsError "Pronto API error: invalid consignee").message) := by
  have h := c1_shipment_failure_persistence testEnv (some "whsec-1")
    successPayload store0 rejectShipmentSends "T1" "S1" sampleSession
    (jsError "Pronto API error: invalid consignee")
    (setSession store0 "S1" (applyUpdate sampleSession
      (webhookTransition true (webhookMetadata sampleSession successPayload "T1"))
      "T1"))
    (by with_unfolding_all rfl) (by with_unfolding_all rfl)
    (by with_unfolding_all rfl) (by with_unfolding_all rfl) rfl
    (by with_unfolding_all rfl)
  exact ⟨by with_unfolding_all rfl, by with_unfolding_all rfl,
    by with_unfolding_all rfl, h.1, h.2.1, h.2.2.1, h.2.2.2.1⟩

/-- C2 (counterexample to the claim as stated): a session in the terminal
state FAILED changes status again — a first webhook reporting payment
failure drives `S1` from PENDING to FAILED, and a replayed webhook
reporting success then drives the same session from FAILED to COMPLETED,
contradicting that no session in a terminal state ever changes status. -/
theorem c2_counterexample :
    sessionStatus (step testEnv store0
        (.webhook (some "whsec-1") (some failurePayload) [] "T1")) "S1" =
      some .FAILED ∧
    sessionStatus (step testEnv (step testEnv store0
        (.webhook (some "whsec-1") (some failurePayload) [] "T1"))
        (.webhook (some "whsec-1") (some successPayload) goodShipmentSends "T2"))
      "S1" = some .COMPLETED :=
  ⟨by with_unfolding_all rfl, by with_unfolding_all rfl⟩

/-- C2 (amended): over every sequence of modelled operations (session
creation, webhook deliveries, shipment orchestrations), a stored session
is never deleted and every status write to an existing session writes a
terminal value: after one operation the status is unchanged or COMPLETED
or FAILED — never PENDING again — and a session that has left PENDING
never returns to it over any operation sequence.  (Terminal states are
not sticky: replayed webhooks with the opposite outcome flip between
COMPLETED and FAILED, see the counterexample.) -/
theorem c2_status_forward (env : Env) (store : Store) (op : Op) (ops : List Op)
    (sid : String) (r : SessionRec) (h : getPaymentSession store sid = some r)
    (hnp : r.status ≠ .PENDING) :
    (sessionStatus (step env store op) sid = some r.status ∨
     sessionStatus (step env store op) sid = some .COMPLETED ∨
     sessionStatus (step env store op) sid = some .FAILED) ∧
    (sessionStatus (runOps env store ops) sid).isSome = true ∧
    sessionStatus (runOps env store ops) sid ≠ some .PENDING := by
  obtain ⟨r2, h2, hst⟩ := step_preserves env store op sid r h
  obtain ⟨r3, h3, hnp3⟩ := runOps_no_pending env ops store sid r h hnp
  refine ⟨?_, ?_, ?_⟩
  · rcases hst with h' | h' | h' <;> simp [sessionStatus, h2, h']
  · simp [sessionStatus, h3]
  · simp only [sessionStatus, h3, Option.map_some', ne_eq, Option.some.injEq]
    exact hnp3

theorem c2_status_forward_witness :
    (sessionStatus (step testEnv [("S1", { sampleSession with status := .COMPLETED })]
        (.webhook (some "whsec-1") (some failurePayload) [] "T3")) "S1" =
          some ({ sampleSession with status := Status.COMPLETED }).status ∨
     sessionStatus (step testEnv [("S1", { sampleSession with status := .COMPLETED })]
        (.webhook (some "whsec-1") (some failurePayload) [] "T3")) "S1" =
          some .COMPLETED ∨
     sessionStatus (step testEnv [("S1", { sampleSession with status := .COMPLETED })]
        (.webhook (some "whsec-1") (some failurePayload) [] "T3")) "S1" =
          some .FAILED) ∧
    (sessionStatus (runOps testEnv [("S1", { sampleSession with status := .COMPLETED })]
        [.webhook (some "whsec-1") (some failurePayload) [] "T3"]) "S1").isSome
      = true ∧
    sessionStatus (runOps testEnv [("S1", { sampleSession with status := .COMPLETED })]
        [.webhook (some "whsec-1") (some failurePayload) [] "T3"]) "S1" ≠
      some .PENDING :=
  c2_status_forward testEnv [("S1", { sampleSession with status := .COMPLETED })]
    (.webhook (some "whsec-1") (some failurePayload) [] "T3")
    [.webhook (some "whsec-1") (some failurePayload) [] "T3"] "S1"
    { sampleSession with status := .COMPLETED } (by with_unfolding_all rfl)
    (by decide)

/-- C3 (counterexample to the claim as stated): metadata does NOT
accumulate the timestamps of every replay.  After two successful-payment
webhook deliveries at times T1 and T2, the stored metadata carries only
the latest delivery (`lastWebhookAt = T2`); the first delivery's
timestamp T1 appears nowhere in the metadata — the webhook keys are
overwritten, not accumulated.  Status is COMPLETED, as claimed. -/
theorem c3_counterexample :
    sessionMetaField (processWebhook testEnv (some "whsec-1")
        (some successPayload)
        (processWebhook testEnv (some "whsec-1") (some successPayload) store0
          goodShipmentSends "T1").store
        goodShipmentSends "T2").store "S1" "lastWebhookAt" =
      some (.str "T2") ∧
    sessionMetaMentions (processWebhook testEnv (some "whsec-1")
        (some successPayload)
        (processWebhook testEnv (some "whsec-1") (some successPayload) store0
          goodShipmentSends "T1").store
        goodShipmentSends "T2").store "S1" "T1" = false ∧
    sessionStatus (processWebhook testEnv (some "whsec-1")
        (some successPayload)
        (processWebhook testEnv (some "whsec-1") (some successPayload) store0
          goodShipmentSends "T1").store
        goodShipmentSends "T2").store "S1" = some .COMPLETED :=
  ⟨by with_unfolding_all rfl, by with_unfolding_all rfl,
   by with_unfolding_all rfl⟩

/-- C3 (amended): replaying a successful-payment webhook is idempotent on
status — after each of two deliveries the stored status is COMPLETED —
and the metadata carries the most recent replay's timestamp and payload
(`lastWebhookAt`/`lastWebhookPayload` are replaced on each delivery, not
accumulated). -/
theorem c3_replay_idempotence (env : Env) (hdr : Option String) (body : JObj)
    (store : Store) (sends1 sends2 : List SendOutcome) (now1 now2 sid : String)
    (session : SessionRec)
    (hsec : secretValid hdr env = true)
    (hid : extractSessionId body = some sid)
    (hget : getPaymentSession store sid = some session)
    (hsucc : isPaymentSuccessful body = true) :
    sessionStatus (processWebhook env hdr (some body) store sends1 now1).store
      sid = some .COMPLETED ∧
    sessionStatus (processWebhook env hdr (some body)
        (processWebhook env hdr (some body) store sends1 now1).store sends2
        now2).store sid = some .COMPLETED ∧
    sessionMetaField (processWebhook env hdr (some body)
        (processWebhook env hdr (some body) store sends1 now1).store sends2
        now2).store sid "lastWebhookAt" = some (.str now2) ∧
    sessionMetaField (processWebhook env hdr (some body)
        (processWebhook env hdr (some body) store sends1 now1).store sends2
        now2).store sid "lastWebhookPayload" = some (.obj body) := by
  obtain ⟨r2, h2, hst2, hA2, hP2⟩ := processWebhook_success_store env hdr body
    store sends1 now1 sid session hsec hid hget hsucc
  obtain ⟨r3, h3, hst3, hA3, hP3⟩ := processWebhook_success_store env hdr body
    _ sends2 now2 sid r2 hsec hid h2 hsucc
  exact ⟨by simp [sessionStatus, h2, hst2], by simp [sessionStatus, h3, hst3],
    by simp [sessionMetaField, h3, hA3], by simp [sessionMetaField, h3, hP3]⟩

theorem c3_replay_idempotence_witness :
    sessionStatus (processWebhook testEnv (some "whsec-1") (some successPayload)
        store0 goodShipmentSends "T1").store "S1" = some .COMPLETED ∧
    sessionStatus (processWebhook testEnv (some "whsec-1") (some successPayload)
        (processWebhook testEnv (some "whsec-1") (some successPayload) store0
          goodShipmentSends "T1").store goodShipmentSends "T2").store "S1" =
      some .COMPLETED ∧
    sessionMetaField (processWebhook testEnv (some "whsec-1")
        (some successPayload)
        (processWebhook testEnv (some "whsec-1") (some successPayload) store0
          goodShipmentSends "T1").store goodShipmentSends "T2").store "S1"
      "lastWebhookAt" = some (.str "T2") ∧
    sessionMetaField (processWebhook testEnv (some "whsec-1")
        (some successPayload)
        (processWebhook testEnv (some "whsec-1") (some successPayload) store0
          goodShipmentSends "T1").store goodShipmentSends "T2").store "S1"
      "lastWebhookPayload" = some (.obj successPayload) :=
  c3_replay_idempotence testEnv (some "whsec-1") successPayload store0
    goodShipmentSends goodShipmentSends "T1" "T2" "S1" sampleSession
    (by with_unfolding_all rfl) (by with_unfolding_all rfl)
    (by with_unfolding_all rfl) (by with_unfolding_all rfl)

theorem c10_zone_code_range_witness :
    getAreaCodeForLocation "Nowhereville" ∈ ["1", "2", "3", "4", "5"] ∧
    getAreaCodeForLocation "Nowhereville" ∈ ["1", "2", "3"] :=
  ⟨(c10_zone_code_range "Nowhereville").1,
   (c10_zone_code_range "Nowhereville").2 (by decide)⟩

end Kifgo
